import Mathlib

/-!
The k8gb metrics layer, controllers/providers/metrics/prometheus.go.

A shallow embedding of the Prometheus metrics layer of k8gb and proofs about
its status aggregation, runtime-info label, registration guard and metric
name derivation.

Conventions of the embedding.

* A Go `string` is a sequence of bytes: `len` counts bytes and `s[:n]` slices
  bytes.  `GoString` is a list of byte values; `str` writes a literal as its
  UTF-8 bytes.
* A `*prometheus.GaugeVec` is a descriptor together with its series: a map
  from the tuple of label values (in the order of the label names handed to
  `NewGaugeVec` in `init`) to the value last `Set`.  The code only ever sets
  `float64(k)` for a non-negative `int` k, so the series hold k itself.
* A panic is rendered as the result `none`.  Two things panic in this code: calling
  `With` on a nil collector pointer, and `With` itself when one of the label values it
  is given is not valid UTF-8 (the label names the code passes are always those the
  collector is constructed with in `init`).  A nil `*Endpoint` in a slice is `none`
  and dereferencing it panics.
* Go iterates a map in an unspecified order.  Where the code ranges over a
  map, the sequence of entries visited is an input of the model.
-/

namespace K8gb

/-! ## Go strings -/

/-- A Go string: its bytes. -/
abbrev GoString := List Nat

/-- UTF-8 encoding of one code point. -/
def utf8 (c : Char) : List Nat :=
  let v := c.toNat
  if v < 0x80 then [v]
  else if v < 0x800 then [0xC0 + v / 0x40, 0x80 + v % 0x40]
  else if v < 0x10000 then [0xE0 + v / 0x1000, 0x80 + v / 0x40 % 0x40, 0x80 + v % 0x40]
  else [0xF0 + v / 0x40000, 0x80 + v / 0x1000 % 0x40, 0x80 + v / 0x40 % 0x40, 0x80 + v % 0x40]

/-- The Go string written as the literal `s`. -/
def str (s : String) : GoString :=
  s.data.flatMap utf8

/-- For the first byte of a multi-byte UTF-8 sequence: how many bytes follow it, and
the range the first of them must lie in (the ranges exclude over-long encodings,
surrogates and code points beyond U+10FFFF); `none` for a byte that cannot start a
sequence. -/
def utf8First (b : Nat) : Option (Nat × Nat × Nat) :=
  if 0xC2 ≤ b ∧ b ≤ 0xDF then some (1, 0x80, 0xBF)
  else if b = 0xE0 then some (2, 0xA0, 0xBF)
  else if b = 0xED then some (2, 0x80, 0x9F)
  else if 0xE1 ≤ b ∧ b ≤ 0xEF then some (2, 0x80, 0xBF)
  else if b = 0xF0 then some (3, 0x90, 0xBF)
  else if b = 0xF4 then some (3, 0x80, 0x8F)
  else if 0xF1 ≤ b ∧ b ≤ 0xF3 then some (3, 0x80, 0xBF)
  else none

/-- Scanning for valid UTF-8 with `pending` bytes of the current sequence still to come,
the next of which must lie between `lo` and `hi`. -/
def validFrom : Nat → Nat → Nat → GoString → Bool
  | 0, _, _, [] => true
  | _ + 1, _, _, [] => false
  | 0, _, _, b :: rest =>
    if b < 0x80 then validFrom 0 0 0 rest
    else
      match utf8First b with
      | some (n, lo, hi) => validFrom n lo hi rest
      | none => false
  | n + 1, lo, hi, b :: rest =>
    if lo ≤ b ∧ b ≤ hi then validFrom n 0x80 0xBF rest else false

/-- The library function `utf8.ValidString`: the bytes are a sequence of well-formed
UTF-8 encodings. -/
def ValidString (s : GoString) : Bool :=
  validFrom 0 0 0 s

/-! ## api/v1beta1: Gslb and HealthStatus -/

/-- HealthStatus is a string-backed type (`type HealthStatus string`). -/
abbrev HealthStatus := GoString

/-- Modelled from the spec: the constant `k8gbv1beta1.Healthy` of api/v1beta1, whose
text is the status label "Healthy". -/
def Healthy : HealthStatus := str "Healthy"

/-- Modelled from the spec: the constant `k8gbv1beta1.Unhealthy` of api/v1beta1, whose
text is the status label "Unhealthy". -/
def Unhealthy : HealthStatus := str "Unhealthy"

/-- Modelled from the spec: the constant `k8gbv1beta1.NotFound` of api/v1beta1, whose
text is the status label "NotFound". -/
def NotFound : HealthStatus := str "NotFound"

/-- Modelled from the spec: `HealthStatus.String()` of api/v1beta1, the text of the status. -/
def HealthStatus.String (h : HealthStatus) : GoString := h

/-- The part of `k8gbv1beta1.Gslb` the metrics read: the object's namespace and name. -/
structure Gslb where
  Namespace : GoString
  Name : GoString

/-! ## prometheus collectors -/

/-- Kind of a metric vector. -/
inductive Kind where
  | Gauge
  | Counter
  | Histogram
  deriving DecidableEq, Repr

/-- What a collector is constructed with: kind, `Name`, `Help` and label names. -/
structure Desc where
  kind : Kind
  Name : GoString
  Help : GoString
  labelNames : List GoString
  deriving DecidableEq, Repr

/-- A `prometheus.GaugeVec`: descriptor and series keyed by the label values. -/
structure GaugeVec where
  desc : Desc
  values : List GoString → Option Nat

/-- A `prometheus.CounterVec`: descriptor and series keyed by the label values. -/
structure CounterVec where
  desc : Desc
  values : List GoString → Option Nat

/-- A `prometheus.HistogramVec`: descriptor and, per label values, the number of
observations (bucket bounds and observed durations are floating point and left out). -/
structure HistogramVec where
  desc : Desc
  counts : List GoString → Option Nat

/-- The constructor `prometheus.NewGaugeVec(GaugeOpts{Name, Help}, labelNames)`: no
series yet. -/
def NewGaugeVec (name help : GoString) (labelNames : List GoString) : GaugeVec :=
  ⟨⟨Kind.Gauge, name, help, labelNames⟩, fun _ => none⟩

/-- The constructor `prometheus.NewCounterVec(CounterOpts{Name, Help}, labelNames)`. -/
def NewCounterVec (name help : GoString) (labelNames : List GoString) : CounterVec :=
  ⟨⟨Kind.Counter, name, help, labelNames⟩, fun _ => none⟩

/-- The constructor `prometheus.NewHistogramVec(HistogramOpts{Name, Help, Buckets},
labelNames)`. -/
def NewHistogramVec (name help : GoString) (labelNames : List GoString) : HistogramVec :=
  ⟨⟨Kind.Histogram, name, help, labelNames⟩, fun _ => none⟩

/-- The call `Set(v)` on the series of the given label values: that series now holds
`v`, every other series is as before. -/
def GaugeVec.Set (vec : GaugeVec) (labelValues : List GoString) (v : Nat) : GaugeVec :=
  { vec with values := fun k => if k = labelValues then some v else vec.values k }

/-- The call `vec.With(labels).Set(v)`.  `With` panics when a label value is not valid
UTF-8, and then nothing is set. -/
def GaugeVec.WithSet (vec : GaugeVec) (labelValues : List GoString) (v : Nat) :
    Option GaugeVec :=
  if labelValues.all ValidString then some (vec.Set labelValues v) else none

/-- Value held by a (possibly nil) gauge at the given label values. -/
def gaugeValue (vec : Option GaugeVec) (labelValues : List GoString) : Option Nat :=
  vec.bind fun g => g.values labelValues

/-! ## The metrics instance -/

def primary : GoString := str "primary"

def secondary : GoString := str "secondary"

def K8gbGslbErrorsTotal : GoString := str "k8gb_gslb_errors_total"
def K8gbGslbHealthyRecords : GoString := str "k8gb_gslb_healthy_records"
def K8gbGslbReconciliationLoopsTotal : GoString := str "k8gb_gslb_reconciliation_loops_total"
def K8gbGslbServiceStatusNum : GoString := str "k8gb_gslb_service_status_num"
def K8gbGslbStatusCountForFailover : GoString := str "k8gb_gslb_status_count_for_failover"
def K8gbGslbStatusCountForRoundrobin : GoString := str "k8gb_gslb_status_count_for_roundrobin"
def K8gbGslbStatusCountForGeoIP : GoString := str "k8gb_gslb_status_count_for_geoip"
def K8gbInfobloxHeartbeatsTotal : GoString := str "k8gb_infoblox_heartbeats_total"
def K8gbInfobloxHeartbeatErrorsTotal : GoString := str "k8gb_infoblox_heartbeat_errors_total"
def K8gbInfobloxRequestDuration : GoString := str "k8gb_infoblox_request_duration"
def K8gbInfobloxZoneUpdatesTotal : GoString := str "k8gb_infoblox_zone_updates_total"
def K8gbInfobloxZoneUpdateErrorsTotal : GoString := str "k8gb_infoblox_zone_update_errors_total"
def K8gbEndpointStatusNum : GoString := str "k8gb_endpoint_status_num"
def K8gbRuntimeInfo : GoString := str "k8gb_runtime_info"

/-- The struct `collectors`: fourteen collector pointers, in declaration order. -/
structure collectors where
  K8gbGslbHealthyRecords : Option GaugeVec
  K8gbGslbServiceStatusNum : Option GaugeVec
  K8gbGslbStatusCountForFailover : Option GaugeVec
  K8gbGslbStatusCountForRoundrobin : Option GaugeVec
  K8gbGslbStatusCountForGeoip : Option GaugeVec
  K8gbGslbErrorsTotal : Option CounterVec
  K8gbGslbReconciliationLoopsTotal : Option CounterVec
  K8gbInfobloxRequestDuration : Option HistogramVec
  K8gbInfobloxZoneUpdatesTotal : Option CounterVec
  K8gbInfobloxZoneUpdateErrorsTotal : Option CounterVec
  K8gbInfobloxHeartbeatsTotal : Option CounterVec
  K8gbInfobloxHeartbeatErrorsTotal : Option CounterVec
  K8gbEndpointStatusNum : Option GaugeVec
  K8gbRuntimeInfo : Option GaugeVec

/-- The part of `resolver.Config` the metrics read. -/
structure Config where
  K8gbNamespace : GoString

/-- The struct `PrometheusMetrics`; `once` is true when the `sync.Once` has fired. -/
structure PrometheusMetrics where
  once : Bool
  config : Config
  metrics : collectors

/-- The zero value of `collectors`: every pointer nil. -/
def collectors.zero : collectors :=
  ⟨none, none, none, none, none, none, none, none, none, none, none, none, none, none⟩

/-- The method `init`: instantiates the fourteen metrics. -/
def PrometheusMetrics.init (m : PrometheusMetrics) : PrometheusMetrics :=
  { m with metrics :=
    { K8gbRuntimeInfo := some (NewGaugeVec K8gbRuntimeInfo (str "K8gb runtime info.")
        [str "namespace", str "k8gb_version", str "go_version", str "arch", str "os", str "git_sha"])
      K8gbEndpointStatusNum := some (NewGaugeVec K8gbEndpointStatusNum
        (str "Number of targets in DNS endpoint.") [str "namespace", str "name", str "dns_name"])
      K8gbGslbHealthyRecords := some (NewGaugeVec K8gbGslbHealthyRecords
        (str "Number of healthy records observed by K8GB.") [str "namespace", str "name"])
      K8gbGslbServiceStatusNum := some (NewGaugeVec K8gbGslbServiceStatusNum
        (str "Number of managed hosts observed by K8GB.") [str "namespace", str "name", str "status"])
      K8gbGslbErrorsTotal := some (NewCounterVec K8gbGslbErrorsTotal
        (str "Number of errors") [str "namespace", str "name"])
      K8gbGslbReconciliationLoopsTotal := some (NewCounterVec K8gbGslbReconciliationLoopsTotal
        (str "Number of successful reconciliation loops.") [str "namespace", str "name"])
      K8gbGslbStatusCountForFailover := some (NewGaugeVec K8gbGslbStatusCountForFailover
        (str "Gslb status count for Failover strategy.") [str "namespace", str "name", str "status"])
      K8gbGslbStatusCountForRoundrobin := some (NewGaugeVec K8gbGslbStatusCountForRoundrobin
        (str "Gslb status count for RoundRobin strategy.") [str "namespace", str "name", str "status"])
      K8gbGslbStatusCountForGeoip := some (NewGaugeVec K8gbGslbStatusCountForGeoIP
        (str "Gslb status count for GeoIP strategy.") [str "namespace", str "name", str "status"])
      K8gbInfobloxRequestDuration := some (NewHistogramVec K8gbInfobloxRequestDuration
        (str ("How long it took for Infoblox requests to complete, partitioned by request type. " ++
          "Round-trip time of http communication is included.")) [str "request", str "success"])
      K8gbInfobloxZoneUpdatesTotal := some (NewCounterVec K8gbInfobloxZoneUpdatesTotal
        (str "Number of K8GB Infoblox zone updates.") [str "namespace", str "name"])
      K8gbInfobloxZoneUpdateErrorsTotal := some (NewCounterVec K8gbInfobloxZoneUpdateErrorsTotal
        (str "Number of K8GB Infoblox zone update errors.") [str "namespace", str "name"])
      K8gbInfobloxHeartbeatsTotal := some (NewCounterVec K8gbInfobloxHeartbeatsTotal
        (str "Number of K8GB Infoblox heartbeat TXT record updates.") [str "namespace", str "name"])
      K8gbInfobloxHeartbeatErrorsTotal := some (NewCounterVec K8gbInfobloxHeartbeatErrorsTotal
        (str "Number of K8GB Infoblox TXT record errors.") [str "namespace", str "name"]) } }

/-- The function `newPrometheusMetrics`: a fresh instance, its `sync.Once` not fired. -/
def newPrometheusMetrics (config : Config) : PrometheusMetrics :=
  PrometheusMetrics.init ⟨false, config, collectors.zero⟩

/-! ## Status aggregation -/

/-- The counting loop of `UpdateIngressHostsPerStatusMetric` over the entries of
`serviceHealth` in the order visited: (healthy, unhealthy, notFound). -/
def countHosts (serviceHealth : List (GoString × HealthStatus)) : Nat × Nat × Nat :=
  serviceHealth.foldl
    (fun (c : Nat × Nat × Nat) entry =>
      if entry.2 = Healthy then (c.1 + 1, c.2.1, c.2.2)
      else if entry.2 = Unhealthy then (c.1, c.2.1 + 1, c.2.2)
      else (c.1, c.2.1, c.2.2 + 1))
    (0, 0, 0)

/-- The method `UpdateIngressHostsPerStatusMetric`; `serviceHealth` is the map as
the list of its entries in the order the `range` visits them. -/
def UpdateIngressHostsPerStatusMetric (m : PrometheusMetrics) (gslb : Gslb)
    (serviceHealth : List (GoString × HealthStatus)) : Option PrometheusMetrics := do
  let c := countHosts serviceHealth
  let vec ← m.metrics.K8gbGslbServiceStatusNum
  let vec ← vec.WithSet [gslb.Namespace, gslb.Name, Healthy.String] c.1
  let vec ← vec.WithSet [gslb.Namespace, gslb.Name, Unhealthy.String] c.2.1
  let vec ← vec.WithSet [gslb.Namespace, gslb.Name, NotFound.String] c.2.2
  pure { m with metrics := { m.metrics with K8gbGslbServiceStatusNum := some vec } }

/-- The `switch healthStatus` of `updateRuntimeStatus`: the values of h, u and n after
it.  The switch has three cases and no default. -/
def statusCounts (healthStatus : HealthStatus) (targets : List GoString) : Nat × Nat × Nat :=
  if healthStatus = Healthy then (targets.length, 0, 0)
  else if healthStatus = Unhealthy then (0, targets.length, 0)
  else if healthStatus = NotFound then (0, 0, targets.length)
  else (0, 0, 0)

/-- The method `updateRuntimeStatus`, on the gauge the caller hands in; the result is
the gauge after the three writes, `none` when the pointer is nil or `With` panics. -/
def updateRuntimeStatus (gslb : Gslb) (vec : Option GaugeVec) (healthStatus : HealthStatus)
    (targets : List GoString) (tag : GoString) : Option GaugeVec := do
  let c := statusCounts healthStatus targets
  let vec ← vec
  let vec ← vec.WithSet [gslb.Namespace, gslb.Name, Healthy ++ tag] c.1
  let vec ← vec.WithSet [gslb.Namespace, gslb.Name, Unhealthy ++ tag] c.2.1
  let vec ← vec.WithSet [gslb.Namespace, gslb.Name, NotFound ++ tag] c.2.2
  pure vec

/-- The method `UpdateFailoverStatus`. -/
def UpdateFailoverStatus (m : PrometheusMetrics) (gslb : Gslb) (isPrimary : Bool)
    (healthy : HealthStatus) (targets : List GoString) : Option PrometheusMetrics := do
  let t := if isPrimary then primary else secondary
  let vec ← updateRuntimeStatus gslb m.metrics.K8gbGslbStatusCountForFailover healthy targets
    (str "_" ++ t)
  pure { m with metrics := { m.metrics with K8gbGslbStatusCountForFailover := some vec } }

/-- The method `UpdateRoundrobinStatus`. -/
def UpdateRoundrobinStatus (m : PrometheusMetrics) (gslb : Gslb)
    (healthy : HealthStatus) (targets : List GoString) : Option PrometheusMetrics := do
  let vec ← updateRuntimeStatus gslb m.metrics.K8gbGslbStatusCountForRoundrobin healthy targets
    (str "")
  pure { m with metrics := { m.metrics with K8gbGslbStatusCountForRoundrobin := some vec } }

/-- The method `UpdateGeoIPStatus`. -/
def UpdateGeoIPStatus (m : PrometheusMetrics) (gslb : Gslb)
    (healthy : HealthStatus) (targets : List GoString) : Option PrometheusMetrics := do
  let vec ← updateRuntimeStatus gslb m.metrics.K8gbGslbStatusCountForGeoip healthy targets
    (str "")
  pure { m with metrics := { m.metrics with K8gbGslbStatusCountForGeoip := some vec } }

/-! ## Endpoint status and runtime info -/

/-- The part of `externaldns.Endpoint` the metrics read. -/
structure Endpoint where
  DNSName : GoString
  Targets : List GoString

/-- The struct `externaldns.DNSEndpointSpec`; `Endpoints` is a slice of pointers, a nil
pointer being `none`. -/
structure DNSEndpointSpec where
  Endpoints : List (Option Endpoint)

/-- The part of `externaldns.DNSEndpoint` the metrics read. -/
structure DNSEndpoint where
  Namespace : GoString
  Name : GoString
  Spec : DNSEndpointSpec

/-- The method `UpdateEndpointStatus`: one `With(...).Set(...)` per endpoint, in slice
order; the first panic ends the call. -/
def UpdateEndpointStatus (m : PrometheusMetrics) (ep : DNSEndpoint) : Option PrometheusMetrics :=
  ep.Spec.Endpoints.foldlM
    (fun (m : PrometheusMetrics) (e : Option Endpoint) => do
      let vec ← m.metrics.K8gbEndpointStatusNum
      let e ← e
      let vec ← vec.WithSet [ep.Namespace, ep.Name, e.DNSName] e.Targets.length
      pure { m with metrics := { m.metrics with K8gbEndpointStatusNum := some vec } })
    m

/-- The closure `firstN` of `SetRuntimeInfo`; `len` and the slice count bytes. -/
def firstN (value : GoString) (n : Nat) : GoString :=
  if value.length < n then value else value.take n

/-- What package `runtime` reports: `runtime.Version()`, `runtime.GOARCH`, `runtime.GOOS`. -/
structure Runtime where
  Version : GoString
  GOARCH : GoString
  GOOS : GoString

/-- The method `SetRuntimeInfo`.  The label values are in the order of the label names
of `K8gbRuntimeInfo`: namespace, k8gb_version, go_version, arch, os, git_sha. -/
def SetRuntimeInfo (rt : Runtime) (m : PrometheusMetrics) (version commit : GoString) :
    Option PrometheusMetrics := do
  let vec ← m.metrics.K8gbRuntimeInfo
  let vec ← vec.WithSet
    [m.config.K8gbNamespace, version, rt.Version, rt.GOARCH, rt.GOOS, firstN commit 7] 1
  pure { m with metrics := { m.metrics with K8gbRuntimeInfo := some vec } }

/-! ## Metric names: the registry map -/

/-- The package variable `regex`, `regexp.MustCompile("[A-Z]")`: a match is one byte in
the range 0x41 to 0x5A (such a byte is never part of a multi-byte UTF-8 sequence). -/
def regex (b : Nat) : Bool :=
  decide (65 ≤ b) && decide (b ≤ 90)

/-- Cutting a string immediately before every match: the fragment still open at the
front of the string and the fragments behind it, each of which begins at a match. -/
def cutBefore (re : Nat → Bool) : GoString → GoString × List GoString
  | [] => ([], [])
  | c :: cs =>
    if re c then ([], (c :: (cutBefore re cs).1) :: (cutBefore re cs).2)
    else (c :: (cutBefore re cs).1, (cutBefore re cs).2)

/-- Modelled from the spec: `utils.SplitAfter(s, re)` of controllers/utils, which is not
among the sources.  The spec: split immediately before every match of the expression (an
uppercase letter) and keep the non-empty fragments. -/
def SplitAfter (s : GoString) (re : Nat → Bool) : List GoString :=
  ((cutBefore re s).1 :: (cutBefore re s).2).filter fun f => decide (f ≠ [])

/-- The library function `strings.Join(elems, sep)`. -/
def Join : List GoString → GoString → GoString
  | [], _ => []
  | [a], _ => a
  | a :: b :: rest, sep => a ++ sep ++ Join (b :: rest) sep

/-- Lower-casing of one ASCII byte: A to Z become a to z. -/
def toLowerByte (b : Nat) : Nat :=
  if decide (65 ≤ b) && decide (b ≤ 90) then b + 32 else b

/-- The library function `strings.ToLower` on a string of ASCII bytes, which the names
of Go struct fields of `collectors` are.  (On other strings Go also lower-cases
non-ASCII letters; bytes from 0x80 on are left as they are here.) -/
def ToLower (s : GoString) : GoString :=
  s.map toLowerByte

/-- The key `registry` derives from a field name:
`strings.ToLower(strings.Join(utils.SplitAfter(n, regex), "_"))`. -/
def canonicalName (n : GoString) : GoString :=
  ToLower (Join (SplitAfter n regex) (str "_"))

/-- The assignment `r[name] = v` on a Go map, kept as the list of its entries. -/
def mapSet (r : List (GoString × Desc)) (name : GoString) (v : Desc) : List (GoString × Desc) :=
  if r.any (fun kv => decide (kv.1 = name))
  then r.map fun kv => if kv.1 = name then (name, v) else kv
  else r ++ [(name, v)]

/-- What reflection over `m.metrics` yields: per field, in declaration order, its name
and its value as a `prometheus.Collector` (the collector's descriptor), `none` for a nil
pointer. -/
def collectors.fields (c : collectors) : List (GoString × Option Desc) :=
  [ (str "K8gbGslbHealthyRecords", c.K8gbGslbHealthyRecords.map fun v => v.desc),
    (str "K8gbGslbServiceStatusNum", c.K8gbGslbServiceStatusNum.map fun v => v.desc),
    (str "K8gbGslbStatusCountForFailover", c.K8gbGslbStatusCountForFailover.map fun v => v.desc),
    (str "K8gbGslbStatusCountForRoundrobin",
      c.K8gbGslbStatusCountForRoundrobin.map fun v => v.desc),
    (str "K8gbGslbStatusCountForGeoip", c.K8gbGslbStatusCountForGeoip.map fun v => v.desc),
    (str "K8gbGslbErrorsTotal", c.K8gbGslbErrorsTotal.map fun v => v.desc),
    (str "K8gbGslbReconciliationLoopsTotal",
      c.K8gbGslbReconciliationLoopsTotal.map fun v => v.desc),
    (str "K8gbInfobloxRequestDuration", c.K8gbInfobloxRequestDuration.map fun v => v.desc),
    (str "K8gbInfobloxZoneUpdatesTotal", c.K8gbInfobloxZoneUpdatesTotal.map fun v => v.desc),
    (str "K8gbInfobloxZoneUpdateErrorsTotal",
      c.K8gbInfobloxZoneUpdateErrorsTotal.map fun v => v.desc),
    (str "K8gbInfobloxHeartbeatsTotal", c.K8gbInfobloxHeartbeatsTotal.map fun v => v.desc),
    (str "K8gbInfobloxHeartbeatErrorsTotal",
      c.K8gbInfobloxHeartbeatErrorsTotal.map fun v => v.desc),
    (str "K8gbEndpointStatusNum", c.K8gbEndpointStatusNum.map fun v => v.desc),
    (str "K8gbRuntimeInfo", c.K8gbRuntimeInfo.map fun v => v.desc) ]

/-- The method `registry`: the map from derived name to collector, built over the
fields in declaration order, nil fields skipped. -/
def registry (m : PrometheusMetrics) : List (GoString × Desc) :=
  m.metrics.fields.foldl
    (fun r field =>
      match field.2 with
      | none => r
      | some v => mapSet r (canonicalName field.1) v)
    []

/-! ## The contract domain of the name derivation -/

/-- Identifiers composed of capitalized word segments, one or more times an uppercase
letter followed by zero or more lowercase letters or digits: the first byte is an
uppercase letter and every later byte is an uppercase letter (opening the next
segment), a lowercase letter or a digit. -/
def isCapitalizedWords : GoString → Bool
  | [] => false
  | c :: cs =>
    regex c && cs.all fun b =>
      regex b || (decide (97 ≤ b) && decide (b ≤ 122)) || (decide (48 ≤ b) && decide (b ≤ 57))

/-- A lowercase letter or a digit. -/
def isLowerOrDigit (b : Nat) : Bool :=
  (decide (97 ≤ b) && decide (b ≤ 122)) || (decide (48 ≤ b) && decide (b ≤ 57))

/-- A capitalized word segment: an uppercase letter followed by zero or more lowercase
letters or digits. -/
def isWordSegment : GoString → Bool
  | [] => false
  | u :: rest => regex u && rest.all isLowerOrDigit

/-- An identifier composed of capitalized word segments: one or more word segments,
one after the other. -/
def IsCapitalizedWords (s : GoString) : Prop :=
  ∃ ws : List GoString, ws ≠ [] ∧ (∀ w ∈ ws, isWordSegment w = true) ∧ s = ws.flatten

/-- The derived name written byte by byte: an underscore before every uppercase
letter, every byte lower-cased. -/
def underscored (s : GoString) : GoString :=
  s.flatMap fun c => if regex c then [95, toLowerByte c] else [toLowerByte c]

/-- Reading an underscored name back: an underscore and the byte after it become that
byte in upper case. -/
def capitalized : GoString → GoString
  | [] => []
  | [c] => [c]
  | c :: d :: rest => if c = 95 then (d - 32) :: capitalized rest else c :: capitalized (d :: rest)

/-! ## Registration -/

/-- The external collector `crm.Registry` as the code uses it, over its states R:
`Register` gives the state after the call and the error it returns (`none` for nil);
`Unregister` gives the state after the call (the code ignores its result). -/
structure Registerer (R : Type) where
  Register : R → Desc → R × Option GoString
  Unregister : R → Desc → R

/-- The loop of `Register` inside `once.Do`: registers the collectors in the order
visited and returns at the first error. -/
def registerAll {R : Type} (crm : Registerer R) : List Desc → R → R × Option GoString
  | [], reg => (reg, none)
  | r :: rs, reg =>
    if (crm.Register reg r).2.isSome then crm.Register reg r
    else registerAll crm rs (crm.Register reg r).1

/-- The method `Register`, on the instance and the state of the external collector;
`visit` is the order in which `range` visits the entries of the map `m.registry()`.
The result is the instance, the collector state and the returned error. -/
def Register {R : Type} (crm : Registerer R) (m : PrometheusMetrics) (reg : R)
    (visit : List (GoString × Desc) → List (GoString × Desc)) :
    PrometheusMetrics × R × Option GoString :=
  if m.once then (m, reg, none)
  else
    ({ m with once := true },
     (registerAll crm ((visit (registry m)).map fun kv => kv.2) reg).1,
     (registerAll crm ((visit (registry m)).map fun kv => kv.2) reg).2.map fun err =>
       str "can't register prometheus metrics: " ++ err)

/-- The method `Unregister`. -/
def Unregister {R : Type} (crm : Registerer R) (m : PrometheusMetrics) (reg : R)
    (visit : List (GoString × Desc) → List (GoString × Desc)) : R :=
  ((visit (registry m)).map fun kv => kv.2).foldl crm.Unregister reg

/-- A call on one instance: `Register`, `Unregister` (each with the order its `range`
takes), or one of the recording methods, which only assign to series held in
`m.metrics`. -/
inductive Call where
  | Register (visit : List (GoString × Desc) → List (GoString × Desc))
  | Unregister (visit : List (GoString × Desc) → List (GoString × Desc))
  | Record (update : collectors → collectors)

/-- The instance and the collector state after one call. -/
def Call.run {R : Type} (crm : Registerer R) (w : PrometheusMetrics × R) :
    Call → PrometheusMetrics × R
  | Call.Register visit =>
    ((K8gb.Register crm w.1 w.2 visit).1, (K8gb.Register crm w.1 w.2 visit).2.1)
  | Call.Unregister visit => (w.1, K8gb.Unregister crm w.1 w.2 visit)
  | Call.Record update => ({ w.1 with metrics := update w.1.metrics }, w.2)

/-- The instance and the collector state after a sequence of calls. -/
def runCalls {R : Type} (crm : Registerer R) (w : PrometheusMetrics × R) (calls : List Call) :
    PrometheusMetrics × R :=
  calls.foldl (Call.run crm) w

/-- The collector accepts the collectors of the list one after the other, which takes
its state from `reg` to `reg1`. -/
def Accepted {R : Type} (crm : Registerer R) : R → List Desc → R → Prop
  | reg, [], reg1 => reg1 = reg
  | reg, r :: rs, reg1 =>
    (crm.Register reg r).2 = none ∧ Accepted crm (crm.Register reg r).1 rs reg1

/-- An external collector that keeps the registered descriptors and rejects a
descriptor whose name is already registered, as a Prometheus registry does on a name
collision; unregistering removes the descriptor of that name, if there is one. -/
def nameRegistry : Registerer (List Desc) where
  Register reg d :=
    if reg.any (fun r => decide (r.Name = d.Name))
    then (reg, some (str "duplicate metrics collector registration attempted"))
    else (reg ++ [d], none)
  Unregister reg d := reg.filter fun r => decide (r.Name ≠ d.Name)

/-! ## Concrete inputs used to instantiate the theorems -/

/-- A freshly constructed instance for the namespace "k8gb". -/
def demoMetrics : PrometheusMetrics := newPrometheusMetrics ⟨str "k8gb"⟩

/-- The Gslb object test-gslb of namespace test-ns. -/
def demoGslb : Gslb := ⟨str "test-ns", str "test-gslb"⟩

/-- A DNSEndpoint with two DNS names, of 3 and of 0 targets. -/
def demoEndpoint : DNSEndpoint :=
  ⟨str "test-ns", str "test-ep",
    ⟨[some ⟨str "a.example.com", [str "10.0.0.1", str "10.0.0.2", str "10.0.0.3"]⟩,
      some ⟨str "b.example.com", []⟩]⟩⟩

/-- An external collector in which a collector named k8gb_gslb_status_count_for_failover
is registered already. -/
def demoCollector : List Desc :=
  [⟨Kind.Gauge, K8gbGslbStatusCountForFailover, str "Registered by someone else.", []⟩]

/-- The three primary-tagged entries of the failover gauge for a Gslb:
(Healthy_primary, Unhealthy_primary, NotFound_primary). -/
def failoverPrimary (m : PrometheusMetrics) (gslb : Gslb) : Option Nat × Option Nat × Option Nat :=
  (gaugeValue m.metrics.K8gbGslbStatusCountForFailover
      [gslb.Namespace, gslb.Name, str "Healthy_primary"],
   gaugeValue m.metrics.K8gbGslbStatusCountForFailover
      [gslb.Namespace, gslb.Name, str "Unhealthy_primary"],
   gaugeValue m.metrics.K8gbGslbStatusCountForFailover
      [gslb.Namespace, gslb.Name, str "NotFound_primary"])

/-- The three secondary-tagged entries of the failover gauge for a Gslb:
(Healthy_secondary, Unhealthy_secondary, NotFound_secondary). -/
def failoverSecondary (m : PrometheusMetrics) (gslb : Gslb) : Option Nat × Option Nat × Option Nat :=
  (gaugeValue m.metrics.K8gbGslbStatusCountForFailover
      [gslb.Namespace, gslb.Name, str "Healthy_secondary"],
   gaugeValue m.metrics.K8gbGslbStatusCountForFailover
      [gslb.Namespace, gslb.Name, str "Unhealthy_secondary"],
   gaugeValue m.metrics.K8gbGslbStatusCountForFailover
      [gslb.Namespace, gslb.Name, str "NotFound_secondary"])

/-! ## Lemmas: status labels and gauges -/

theorem Healthy_ne_Unhealthy : Healthy ≠ Unhealthy := by decide

theorem Healthy_ne_NotFound : Healthy ≠ NotFound := by decide

theorem Unhealthy_ne_NotFound : Unhealthy ≠ NotFound := by decide

/-- The counting loop from an arbitrary start adds, to each counter, the number of
entries of its class. -/
theorem countHosts_foldl (l : List (GoString × HealthStatus)) (c : Nat × Nat × Nat) :
    l.foldl
      (fun (c : Nat × Nat × Nat) entry =>
        if entry.2 = Healthy then (c.1 + 1, c.2.1, c.2.2)
        else if entry.2 = Unhealthy then (c.1, c.2.1 + 1, c.2.2)
        else (c.1, c.2.1, c.2.2 + 1)) c
      = (c.1 + l.countP (fun e => decide (e.2 = Healthy)),
         c.2.1 + l.countP (fun e => decide (e.2 = Unhealthy)),
         c.2.2 + l.countP (fun e => decide (e.2 ≠ Healthy ∧ e.2 ≠ Unhealthy))) := by
  induction l generalizing c with
  | nil => simp
  | cons e l ih =>
    rw [List.foldl_cons, ih]
    by_cases h1 : e.2 = Healthy
    · have h2 : e.2 ≠ Unhealthy := by rw [h1]; exact Healthy_ne_Unhealthy
      simp [h1, h2, List.countP_cons, Healthy_ne_Unhealthy]
      omega
    · by_cases h2 : e.2 = Unhealthy
      · simp [h1, h2, List.countP_cons, Healthy_ne_Unhealthy.symm]
        omega
      · simp [h1, h2, List.countP_cons]
        omega

theorem countHosts_eq (l : List (GoString × HealthStatus)) :
    countHosts l
      = (l.countP (fun e => decide (e.2 = Healthy)),
         l.countP (fun e => decide (e.2 = Unhealthy)),
         l.countP (fun e => decide (e.2 ≠ Healthy ∧ e.2 ≠ Unhealthy))) := by
  unfold countHosts
  rw [countHosts_foldl]
  simp

/-- Every entry falls in exactly one of the three classes. -/
theorem countP_classes (l : List (GoString × HealthStatus)) :
    l.countP (fun e => decide (e.2 = Healthy)) + l.countP (fun e => decide (e.2 = Unhealthy))
      + l.countP (fun e => decide (e.2 ≠ Healthy ∧ e.2 ≠ Unhealthy)) = l.length := by
  induction l with
  | nil => simp
  | cons e l ih =>
    by_cases h1 : e.2 = Healthy
    · have h2 : e.2 ≠ Unhealthy := by rw [h1]; exact Healthy_ne_Unhealthy
      simp [h1, h2, List.countP_cons, Healthy_ne_Unhealthy] at ih ⊢
      omega
    · by_cases h2 : e.2 = Unhealthy
      · simp [h1, h2, List.countP_cons, Healthy_ne_Unhealthy.symm] at ih ⊢
        omega
      · simp [h1, h2, List.countP_cons] at ih ⊢
        omega

/-! Valid UTF-8 and the panic of `With` -/

theorem validFrom_zero (lo hi : Nat) (s : GoString) :
    validFrom 0 lo hi s = validFrom 0 0 0 s := by
  cases s <;> rfl

theorem ValidString_cons_ascii (b : Nat) (s : GoString) (hb : b < 128) :
    ValidString (b :: s) = ValidString s := by
  simp [ValidString, validFrom, hb]

/-- ASCII bytes in front of a string do not change whether it is valid UTF-8. -/
theorem ValidString_ascii_append (a t : GoString) (ha : ∀ b ∈ a, b < 128) :
    ValidString (a ++ t) = ValidString t := by
  induction a with
  | nil => rfl
  | cons b a ih =>
    rw [List.cons_append, ValidString_cons_ascii _ _ (ha b (List.mem_cons_self _ _))]
    exact ih fun c hc => ha c (List.mem_cons_of_mem _ hc)

/-- A string of ASCII bytes is valid UTF-8. -/
theorem ValidString_of_ascii (s : GoString) (h : ∀ b ∈ s, b < 128) : ValidString s = true := by
  have := ValidString_ascii_append s [] h
  rw [List.append_nil] at this
  rw [this]
  rfl

theorem WithSet_valid (vec : GaugeVec) (k : List GoString) (v : Nat)
    (h : k.all ValidString = true) : vec.WithSet k v = some (vec.Set k v) := by
  simp only [GaugeVec.WithSet, h, if_true]

theorem WithSet_eq_some (vec g : GaugeVec) (k : List GoString) (v : Nat)
    (h : vec.WithSet k v = some g) : k.all ValidString = true ∧ g = vec.Set k v := by
  unfold GaugeVec.WithSet at h
  split_ifs at h with hk
  exact ⟨hk, (Option.some.inj h).symm⟩

theorem all_valid_three (a b c : GoString) :
    [a, b, c].all ValidString = true ↔
      ValidString a = true ∧ ValidString b = true ∧ ValidString c = true := by
  simp [List.all_cons]

theorem Healthy_ascii : ∀ b ∈ Healthy, b < 128 := by decide

theorem Unhealthy_ascii : ∀ b ∈ Unhealthy, b < 128 := by decide

theorem NotFound_ascii : ∀ b ∈ NotFound, b < 128 := by decide

/-- What `updateRuntimeStatus` leaves in an instantiated gauge when namespace, name and
tag are valid UTF-8: the three tagged entries hold the three counters of the switch,
all other entries and the descriptor are untouched. -/
theorem updateRuntimeStatus_some (gslb : Gslb) (g : GaugeVec) (s : HealthStatus)
    (ts : List GoString) (tag : GoString)
    (hns : ValidString gslb.Namespace = true) (hname : ValidString gslb.Name = true)
    (htag : ValidString tag = true) :
    ∃ g1, updateRuntimeStatus gslb (some g) s ts tag = some g1 ∧
      g1.values [gslb.Namespace, gslb.Name, Healthy ++ tag] = some (statusCounts s ts).1 ∧
      g1.values [gslb.Namespace, gslb.Name, Unhealthy ++ tag] = some (statusCounts s ts).2.1 ∧
      g1.values [gslb.Namespace, gslb.Name, NotFound ++ tag] = some (statusCounts s ts).2.2 ∧
      (∀ k, k ≠ [gslb.Namespace, gslb.Name, Healthy ++ tag] →
        k ≠ [gslb.Namespace, gslb.Name, Unhealthy ++ tag] →
        k ≠ [gslb.Namespace, gslb.Name, NotFound ++ tag] → g1.values k = g.values k) ∧
      g1.desc = g.desc := by
  have e1 : Healthy ++ tag ≠ Unhealthy ++ tag :=
    fun h => Healthy_ne_Unhealthy ((List.append_left_inj tag).1 h)
  have e2 : Healthy ++ tag ≠ NotFound ++ tag :=
    fun h => Healthy_ne_NotFound ((List.append_left_inj tag).1 h)
  have e3 : Unhealthy ++ tag ≠ NotFound ++ tag :=
    fun h => Unhealthy_ne_NotFound ((List.append_left_inj tag).1 h)
  have k1 : [gslb.Namespace, gslb.Name, Healthy ++ tag].all ValidString = true :=
    (all_valid_three _ _ _).2 ⟨hns, hname, by rw [ValidString_ascii_append _ _ Healthy_ascii, htag]⟩
  have k2 : [gslb.Namespace, gslb.Name, Unhealthy ++ tag].all ValidString = true :=
    (all_valid_three _ _ _).2
      ⟨hns, hname, by rw [ValidString_ascii_append _ _ Unhealthy_ascii, htag]⟩
  have k3 : [gslb.Namespace, gslb.Name, NotFound ++ tag].all ValidString = true :=
    (all_valid_three _ _ _).2
      ⟨hns, hname, by rw [ValidString_ascii_append _ _ NotFound_ascii, htag]⟩
  refine ⟨((g.Set [gslb.Namespace, gslb.Name, Healthy ++ tag] (statusCounts s ts).1).Set
      [gslb.Namespace, gslb.Name, Unhealthy ++ tag] (statusCounts s ts).2.1).Set
      [gslb.Namespace, gslb.Name, NotFound ++ tag] (statusCounts s ts).2.2, ?_, ?_, ?_, ?_, ?_, rfl⟩
  · simp only [updateRuntimeStatus, Option.bind_eq_bind, Option.some_bind, WithSet_valid _ _ _ k1,
      WithSet_valid _ _ _ k2, WithSet_valid _ _ _ k3, pure]
  · simp [GaugeVec.Set, e1, e2]
  · simp [GaugeVec.Set, e3]
  · simp [GaugeVec.Set]
  · intro k h1 h2 h3
    simp [GaugeVec.Set, h1, h2, h3]

/-- On a nil gauge `updateRuntimeStatus` panics. -/
theorem updateRuntimeStatus_none (gslb : Gslb) (s : HealthStatus)
    (ts : List GoString) (tag : GoString) :
    updateRuntimeStatus gslb none s ts tag = none := rfl

/-- When `updateRuntimeStatus` returns, the gauge was instantiated and namespace, name
and tag are valid UTF-8. -/
theorem updateRuntimeStatus_returns (gslb : Gslb) (vec : Option GaugeVec) (s : HealthStatus)
    (ts : List GoString) (tag : GoString) (g1 : GaugeVec)
    (h : updateRuntimeStatus gslb vec s ts tag = some g1) :
    ∃ g, vec = some g ∧ ValidString gslb.Namespace = true ∧ ValidString gslb.Name = true ∧
      ValidString tag = true := by
  cases vec with
  | none => rw [updateRuntimeStatus_none] at h; cases h
  | some g =>
    refine ⟨g, rfl, ?_⟩
    by_cases hk : [gslb.Namespace, gslb.Name, Healthy ++ tag].all ValidString = true
    · obtain ⟨h1, h2, h3⟩ := (all_valid_three _ _ _).1 hk
      rw [ValidString_ascii_append _ _ Healthy_ascii] at h3
      exact ⟨h1, h2, h3⟩
    · simp only [updateRuntimeStatus, Option.bind_eq_bind, Option.some_bind, GaugeVec.WithSet,
        hk] at h
      simp at h

theorem statusCounts_Healthy (ts : List GoString) :
    statusCounts Healthy ts = (ts.length, 0, 0) := by
  simp [statusCounts]

theorem statusCounts_Unhealthy (ts : List GoString) :
    statusCounts Unhealthy ts = (0, ts.length, 0) := by
  simp [statusCounts, Healthy_ne_Unhealthy.symm]

theorem statusCounts_NotFound (ts : List GoString) :
    statusCounts NotFound ts = (0, 0, ts.length) := by
  simp [statusCounts, Healthy_ne_NotFound.symm, Unhealthy_ne_NotFound.symm]

theorem statusCounts_other (s : HealthStatus) (ts : List GoString)
    (h1 : s ≠ Healthy) (h2 : s ≠ Unhealthy) (h3 : s ≠ NotFound) :
    statusCounts s ts = (0, 0, 0) := by
  simp [statusCounts, h1, h2, h3]

/-- The three values `updateRuntimeStatus` writes sum to the number of targets when the
status is one of the three constants, and to 0 for every other status. -/
theorem updateRuntimeStatus_sum (gslb : Gslb) (g : GaugeVec) (s : HealthStatus)
    (ts : List GoString) (tag : GoString)
    (hns : ValidString gslb.Namespace = true) (hname : ValidString gslb.Name = true)
    (htag : ValidString tag = true) :
    ∃ g1 h u n, updateRuntimeStatus gslb (some g) s ts tag = some g1 ∧
      g1.values [gslb.Namespace, gslb.Name, Healthy ++ tag] = some h ∧
      g1.values [gslb.Namespace, gslb.Name, Unhealthy ++ tag] = some u ∧
      g1.values [gslb.Namespace, gslb.Name, NotFound ++ tag] = some n ∧
      h + u + n = (if s = Healthy ∨ s = Unhealthy ∨ s = NotFound then ts.length else 0) := by
  obtain ⟨g1, hrun, hH, hU, hN, -, -⟩ := updateRuntimeStatus_some gslb g s ts tag hns hname htag
  refine ⟨g1, _, _, _, hrun, hH, hU, hN, ?_⟩
  by_cases h1 : s = Healthy
  · rw [h1, statusCounts_Healthy]; simp
  · by_cases h2 : s = Unhealthy
    · rw [h2, statusCounts_Unhealthy]; simp
    · by_cases h3 : s = NotFound
      · rw [h3, statusCounts_NotFound]; simp
      · rw [statusCounts_other s ts h1 h2 h3]; simp [h1, h2, h3]

/-- One failover report on an instantiated failover gauge, for a valid UTF-8 namespace
and name: the call returns, the gauge stays instantiated and its three entries tagged
for this side are the counters of the switch. -/
theorem UpdateFailoverStatus_tagged (m : PrometheusMetrics) (gslb : Gslb) (isPrimary : Bool)
    (s : HealthStatus) (ts : List GoString) (g : GaugeVec)
    (hF : m.metrics.K8gbGslbStatusCountForFailover = some g)
    (hns : ValidString gslb.Namespace = true) (hname : ValidString gslb.Name = true) :
    ∃ m1 g1, UpdateFailoverStatus m gslb isPrimary s ts = some m1 ∧
      m1.metrics.K8gbGslbStatusCountForFailover = some g1 ∧
      g1.values [gslb.Namespace, gslb.Name,
          Healthy ++ (if isPrimary then str "_primary" else str "_secondary")]
        = some (statusCounts s ts).1 ∧
      g1.values [gslb.Namespace, gslb.Name,
          Unhealthy ++ (if isPrimary then str "_primary" else str "_secondary")]
        = some (statusCounts s ts).2.1 ∧
      g1.values [gslb.Namespace, gslb.Name,
          NotFound ++ (if isPrimary then str "_primary" else str "_secondary")]
        = some (statusCounts s ts).2.2 := by
  have htag : (str "_" ++ (if isPrimary then primary else secondary))
      = (if isPrimary then str "_primary" else str "_secondary") := by
    cases isPrimary <;> decide
  have hvalid : ValidString (if isPrimary then str "_primary" else str "_secondary") = true := by
    cases isPrimary <;> decide
  obtain ⟨g1, hrun, hH, hU, hN, -, -⟩ := updateRuntimeStatus_some gslb g s ts
    (if isPrimary then str "_primary" else str "_secondary") hns hname hvalid
  refine ⟨{ m with metrics := { m.metrics with K8gbGslbStatusCountForFailover := (some g1) } },
    g1, ?_, rfl, hH, hU, hN⟩
  simp only [UpdateFailoverStatus, hF, htag, hrun]
  rfl

/-- One primary failover report: the three primary-tagged entries afterwards. -/
theorem UpdateFailoverStatus_primary (m : PrometheusMetrics) (gslb : Gslb) (s : HealthStatus)
    (ts : List GoString) (g : GaugeVec) (hF : m.metrics.K8gbGslbStatusCountForFailover = some g)
    (hns : ValidString gslb.Namespace = true) (hname : ValidString gslb.Name = true) :
    ∃ m1 g1, UpdateFailoverStatus m gslb true s ts = some m1 ∧
      m1.metrics.K8gbGslbStatusCountForFailover = some g1 ∧
      failoverPrimary m1 gslb =
        (some (statusCounts s ts).1, some (statusCounts s ts).2.1, some (statusCounts s ts).2.2) := by
  obtain ⟨m1, g1, hrun, hg1, hH, hU, hN⟩ :=
    UpdateFailoverStatus_tagged m gslb true s ts g hF hns hname
  refine ⟨m1, g1, hrun, hg1, ?_⟩
  simp only [failoverPrimary, gaugeValue, hg1, Option.some_bind]
  exact Prod.ext hH (Prod.ext hU hN)

/-- When a failover report returns, the gauge was instantiated and the namespace and
name are valid UTF-8. -/
theorem UpdateFailoverStatus_returns (m m1 : PrometheusMetrics) (gslb : Gslb) (isPrimary : Bool)
    (s : HealthStatus) (ts : List GoString)
    (h : UpdateFailoverStatus m gslb isPrimary s ts = some m1) :
    ∃ g, m.metrics.K8gbGslbStatusCountForFailover = some g ∧
      ValidString gslb.Namespace = true ∧ ValidString gslb.Name = true := by
  cases hu : updateRuntimeStatus gslb m.metrics.K8gbGslbStatusCountForFailover s ts
      (str "_" ++ (if isPrimary then primary else secondary)) with
  | none =>
    simp only [UpdateFailoverStatus, hu] at h
    cases h
  | some g1 =>
    obtain ⟨g, hg, hns, hname, -⟩ := updateRuntimeStatus_returns _ _ _ _ _ _ hu
    exact ⟨g, hg, hns, hname⟩

/-- The switch of `updateRuntimeStatus` leaves at most one counter non-zero. -/
theorem statusCounts_cases (s : HealthStatus) (ts : List GoString) :
    statusCounts s ts = (ts.length, 0, 0) ∨ statusCounts s ts = (0, ts.length, 0) ∨
    statusCounts s ts = (0, 0, ts.length) ∨ statusCounts s ts = (0, 0, 0) := by
  unfold statusCounts
  split_ifs <;> simp

/-- The loop of `UpdateEndpointStatus` on an instantiated gauge, for non-nil endpoints
with pairwise distinct, valid UTF-8 DNS names. -/
theorem UpdateEndpointStatus_loop (ns name : GoString) (es : List Endpoint)
    (m : PrometheusMetrics) (g : GaugeVec) (hg : m.metrics.K8gbEndpointStatusNum = some g)
    (hns : ValidString ns = true) (hname : ValidString name = true)
    (hdns : ∀ e ∈ es, ValidString e.DNSName = true)
    (hnd : (es.map fun e => e.DNSName).Nodup) :
    ∃ g1, (es.map some).foldlM
        (fun (m : PrometheusMetrics) (e : Option Endpoint) => do
          let vec ← m.metrics.K8gbEndpointStatusNum
          let e ← e
          let vec ← vec.WithSet [ns, name, e.DNSName] e.Targets.length
          pure { m with metrics := { m.metrics with K8gbEndpointStatusNum := some vec } })
        m = some { m with metrics := { m.metrics with K8gbEndpointStatusNum := (some g1) } } ∧
      g1.desc = g.desc ∧
      (∀ e ∈ es, g1.values [ns, name, e.DNSName] = some e.Targets.length) ∧
      (∀ k, (∀ e ∈ es, k ≠ [ns, name, e.DNSName]) → g1.values k = g.values k) := by
  induction es generalizing m g with
  | nil =>
    refine ⟨g, ?_, rfl, ?_, ?_⟩
    · simp only [List.map_nil, List.foldlM, pure]
      rw [← hg]
    · intro e he; cases he
    · intro k _; rfl
  | cons e es ih =>
    rw [List.map_cons, List.nodup_cons] at hnd
    obtain ⟨hne, hnd⟩ := hnd
    have hk : [ns, name, e.DNSName].all ValidString = true :=
      (all_valid_three _ _ _).2 ⟨hns, hname, hdns e (List.mem_cons_self _ _)⟩
    obtain ⟨g1, hrun, hdesc, hval, hframe⟩ :=
      ih { m with metrics := { m.metrics with K8gbEndpointStatusNum :=
            (some (g.Set [ns, name, e.DNSName] e.Targets.length)) } }
        (g.Set [ns, name, e.DNSName] e.Targets.length) rfl
        (fun e1 he1 => hdns e1 (List.mem_cons_of_mem _ he1)) hnd
    refine ⟨g1, ?_, ?_, ?_, ?_⟩
    · rw [List.map_cons, List.foldlM_cons]
      simp only [hg, Option.bind_eq_bind, Option.some_bind, WithSet_valid _ _ _ hk, pure]
      exact hrun
    · rw [hdesc]; rfl
    · intro e1 he1
      rcases List.mem_cons.1 he1 with rfl | he1
      · rw [hframe]
        · simp [GaugeVec.Set]
        · intro e2 he2 heq
          apply hne
          have : e1.DNSName = e2.DNSName := by simpa using heq
          rw [this]
          exact List.mem_map_of_mem _ he2
      · exact hval e1 he1
    · intro k hk
      rw [hframe k fun e1 he1 => hk e1 (List.mem_cons_of_mem _ he1)]
      have := hk e (List.mem_cons_self _ _)
      simp [GaugeVec.Set, this]


/-! ## Lemmas: name derivation -/

theorem cutBefore_cons (re : Nat → Bool) (c : Nat) (cs : GoString) :
    cutBefore re (c :: cs)
      = if re c then ([], (c :: (cutBefore re cs).1) :: (cutBefore re cs).2)
        else (c :: (cutBefore re cs).1, (cutBefore re cs).2) := by
  rw [cutBefore]

theorem cutBefore_closed_ne_nil (re : Nat → Bool) (s : GoString) :
    ∀ f ∈ (cutBefore re s).2, f ≠ [] := by
  induction s with
  | nil => intro f hf; cases hf
  | cons c cs ih =>
    intro f hf
    rw [cutBefore_cons] at hf
    split_ifs at hf
    · rcases List.mem_cons.1 hf with rfl | hf
      · exact List.cons_ne_nil _ _
      · exact ih f hf
    · exact ih f hf

theorem SplitAfter_eq (re : Nat → Bool) (s : GoString) :
    SplitAfter s re =
      if (cutBefore re s).1 = [] then (cutBefore re s).2
      else (cutBefore re s).1 :: (cutBefore re s).2 := by
  have htail : (cutBefore re s).2.filter (fun f => decide (f ≠ [])) = (cutBefore re s).2 :=
    List.filter_eq_self.2 fun f hf => by simpa using cutBefore_closed_ne_nil re s f hf
  unfold SplitAfter
  split_ifs with h
  · rw [List.filter_cons, htail]; simp [h]
  · rw [List.filter_cons, htail]; simp [h]

theorem ToLower_Join (g : GoString) (gs : List GoString) :
    ToLower (Join (g :: gs) [95]) = ToLower g ++ gs.flatMap fun x => 95 :: ToLower x := by
  induction gs generalizing g with
  | nil => simp [Join]
  | cons h gs ih =>
    have hlow : toLowerByte 95 = 95 := by decide
    have := ih h
    simp only [ToLower] at this ⊢
    simp [Join, this, hlow]

theorem underscored_cutBefore (s : GoString) :
    ToLower (cutBefore regex s).1 ++ ((cutBefore regex s).2.flatMap fun x => 95 :: ToLower x)
      = underscored s := by
  induction s with
  | nil => rfl
  | cons c cs ih =>
    have hu : underscored (c :: cs)
        = (if regex c then [95, toLowerByte c] else [toLowerByte c]) ++ underscored cs := by
      simp [underscored]
    rw [hu, ← ih, cutBefore_cons]
    by_cases hc : regex c = true
    · simp [hc, ToLower]
    · simp [hc, ToLower]

/-- The derived name of a string that starts with an uppercase letter. -/
theorem canonicalName_cons (u : Nat) (t : GoString) (hu : regex u = true) :
    canonicalName (u :: t) = toLowerByte u :: underscored t := by
  have hstr : str "_" = [95] := by decide
  have hcut : cutBefore regex (u :: t)
      = ([], (u :: (cutBefore regex t).1) :: (cutBefore regex t).2) := by
    rw [cutBefore_cons]; simp [hu]
  unfold canonicalName
  rw [SplitAfter_eq, hcut, hstr]
  simp only [if_true]
  rw [ToLower_Join, ← underscored_cutBefore t]
  simp [ToLower]

theorem capitalized_cons_of_ne (c : Nat) (l : GoString) (hc : c ≠ 95) :
    capitalized (c :: l) = c :: capitalized l := by
  cases l with
  | nil => rfl
  | cons d rest => simp [capitalized, hc]

theorem capitalized_underscored (t : GoString)
    (ht : t.all (fun b =>
      regex b || (decide (97 ≤ b) && decide (b ≤ 122)) || (decide (48 ≤ b) && decide (b ≤ 57)))
        = true) :
    capitalized (underscored t) = t := by
  induction t with
  | nil => rfl
  | cons c cs ih =>
    rw [List.all_cons, Bool.and_eq_true] at ht
    obtain ⟨hc, hcs⟩ := ht
    have hu : underscored (c :: cs)
        = (if regex c then [95, toLowerByte c] else [toLowerByte c]) ++ underscored cs := by
      simp [underscored]
    rw [hu]
    by_cases hr : regex c = true
    · have h1 : 65 ≤ c ∧ c ≤ 90 := by simpa [regex] using hr
      have hl : toLowerByte c = c + 32 := by simp [toLowerByte, h1.1, h1.2]
      simp [hr, hl, capitalized, ih hcs]
    · have h1 : ¬ (65 ≤ c ∧ c ≤ 90) := by simpa [regex] using hr
      have hl : toLowerByte c = c := by
        unfold toLowerByte
        simp only [Bool.and_eq_true, decide_eq_true_eq]
        rw [if_neg h1]
      have hne : c ≠ 95 := by
        simp only [hr, Bool.false_or, Bool.or_eq_true, Bool.and_eq_true, decide_eq_true_eq] at hc
        omega
      simp only [hr, hl]
      simp only [Bool.false_eq_true, if_false, List.singleton_append]
      rw [capitalized_cons_of_ne c _ hne, ih hcs]

/-- The derived name determines the identifier, on identifiers made of capitalized
word segments. -/
theorem canonicalName_inj (a b : GoString) (ha : isCapitalizedWords a = true)
    (hb : isCapitalizedWords b = true) (h : canonicalName a = canonicalName b) : a = b := by
  cases a with
  | nil => simp [isCapitalizedWords] at ha
  | cons u t =>
    cases b with
    | nil => simp [isCapitalizedWords] at hb
    | cons v w =>
      simp only [isCapitalizedWords, Bool.and_eq_true] at ha hb
      rw [canonicalName_cons u t ha.1, canonicalName_cons v w hb.1] at h
      obtain ⟨h1, h2⟩ := List.cons.inj h
      have hu : 65 ≤ u ∧ u ≤ 90 := by simpa [regex] using ha.1
      have hv : 65 ≤ v ∧ v ≤ 90 := by simpa [regex] using hb.1
      have h3 : u = v := by
        simp [toLowerByte, hu.1, hu.2, hv.1, hv.2] at h1
        exact h1
      have h4 : t = w := by
        rw [← capitalized_underscored t ha.2, ← capitalized_underscored w hb.2, h2]
      rw [h3, h4]

theorem cutBefore_flatten (re : Nat → Bool) (s : GoString) :
    (cutBefore re s).1 ++ (cutBefore re s).2.flatten = s := by
  induction s with
  | nil => rfl
  | cons c cs ih =>
    rw [cutBefore_cons]
    split_ifs
    · simpa using ih
    · simpa using ih

theorem cutBefore_open (re : Nat → Bool) (s : GoString) :
    ∀ b ∈ (cutBefore re s).1, re b = false ∧ b ∈ s := by
  induction s with
  | nil => intro b hb; cases hb
  | cons c cs ih =>
    intro b hb
    rw [cutBefore_cons] at hb
    split_ifs at hb with hc
    · cases hb
    · rcases List.mem_cons.1 hb with rfl | hb
      · exact ⟨by simpa using hc, List.mem_cons_self _ _⟩
      · exact ⟨(ih b hb).1, List.mem_cons_of_mem _ (ih b hb).2⟩

theorem cutBefore_closed_segments (s : GoString)
    (hs : ∀ b ∈ s, (regex b || isLowerOrDigit b) = true) :
    ∀ f ∈ (cutBefore regex s).2, isWordSegment f = true := by
  induction s with
  | nil => intro f hf; cases hf
  | cons c cs ih =>
    have hcs : ∀ b ∈ cs, (regex b || isLowerOrDigit b) = true :=
      fun b hb => hs b (List.mem_cons_of_mem _ hb)
    intro f hf
    rw [cutBefore_cons] at hf
    split_ifs at hf with hc
    · rcases List.mem_cons.1 hf with rfl | hf
      · simp only [isWordSegment, hc, Bool.true_and, List.all_eq_true]
        intro b hb
        have h1 := cutBefore_open regex cs b hb
        have h2 := hcs b h1.2
        rw [h1.1] at h2
        simpa using h2
      · exact ih hcs f hf
    · exact ih hcs f hf

theorem all_alnum_iff (t : GoString) :
    (t.all fun b =>
      regex b || (decide (97 ≤ b) && decide (b ≤ 122)) || (decide (48 ≤ b) && decide (b ≤ 57)))
      = true ↔ ∀ b ∈ t, (regex b || isLowerOrDigit b) = true := by
  simp [isLowerOrDigit, Bool.or_assoc]

theorem isWordSegment_isCapitalizedWords (w : GoString) (hw : isWordSegment w = true) :
    isCapitalizedWords w = true := by
  cases w with
  | nil => simp [isWordSegment] at hw
  | cons u rest =>
    simp only [isWordSegment, Bool.and_eq_true, List.all_eq_true] at hw
    simp only [isCapitalizedWords, Bool.and_eq_true]
    refine ⟨hw.1, (all_alnum_iff rest).2 fun b hb => ?_⟩
    rw [hw.2 b hb]
    simp

theorem isCapitalizedWords_append (a b : GoString) (ha : isCapitalizedWords a = true)
    (hb : isCapitalizedWords b = true) : isCapitalizedWords (a ++ b) = true := by
  cases a with
  | nil => simp [isCapitalizedWords] at ha
  | cons u t =>
    cases b with
    | nil => simpa using ha
    | cons v w =>
      simp only [isCapitalizedWords, Bool.and_eq_true] at ha hb
      simp only [List.cons_append, isCapitalizedWords, Bool.and_eq_true, List.all_append,
        List.all_cons]
      refine ⟨ha.1, ha.2, ?_, hb.2⟩
      rw [hb.1]
      simp

/-- The recogniser `isCapitalizedWords` accepts exactly the identifiers composed of
capitalized word segments. -/
theorem isCapitalizedWords_iff (s : GoString) :
    isCapitalizedWords s = true ↔ IsCapitalizedWords s := by
  constructor
  · intro h
    cases s with
    | nil => simp [isCapitalizedWords] at h
    | cons u t =>
      simp only [isCapitalizedWords, Bool.and_eq_true] at h
      have hall : ∀ b ∈ u :: t, (regex b || isLowerOrDigit b) = true := by
        intro b hb
        rcases List.mem_cons.1 hb with rfl | hb
        · simp [h.1]
        · exact (all_alnum_iff t).1 h.2 b hb
      have hcut : cutBefore regex (u :: t)
          = ([], (u :: (cutBefore regex t).1) :: (cutBefore regex t).2) := by
        rw [cutBefore_cons]; simp [h.1]
      refine ⟨(cutBefore regex (u :: t)).2, ?_, cutBefore_closed_segments (u :: t) hall, ?_⟩
      · rw [hcut]; exact List.cons_ne_nil _ _
      · have := cutBefore_flatten regex (u :: t)
        rw [hcut] at this ⊢
        simpa using this.symm
  · rintro ⟨ws, hne, hseg, rfl⟩
    induction ws with
    | nil => exact absurd rfl hne
    | cons w ws ih =>
      have hw := isWordSegment_isCapitalizedWords w (hseg w (List.mem_cons_self _ _))
      cases ws with
      | nil => simpa using hw
      | cons w2 ws2 =>
        rw [List.flatten_cons]
        exact isCapitalizedWords_append _ _ hw
          (ih (List.cons_ne_nil _ _) fun x hx => hseg x (List.mem_cons_of_mem _ hx))

/-! ## Lemmas: registration -/

theorem Register_of_once {R : Type} (crm : Registerer R) (m : PrometheusMetrics) (reg : R)
    (visit : List (GoString × Desc) → List (GoString × Desc)) (h : m.once = true) :
    Register crm m reg visit = (m, reg, none) := by
  simp [Register, h]

theorem Register_sets_once {R : Type} (crm : Registerer R) (m : PrometheusMetrics) (reg : R)
    (visit : List (GoString × Desc) → List (GoString × Desc)) :
    (Register crm m reg visit).1.once = true := by
  unfold Register
  split_ifs with h
  · exact h
  · rfl

theorem Call_run_once {R : Type} (crm : Registerer R) (w : PrometheusMetrics × R) (c : Call)
    (h : w.1.once = true) : (Call.run crm w c).1.once = true := by
  cases c with
  | Register visit => exact Register_sets_once crm w.1 w.2 visit
  | Unregister visit => exact h
  | Record update => exact h

theorem runCalls_once {R : Type} (crm : Registerer R) (calls : List Call)
    (w : PrometheusMetrics × R) (h : w.1.once = true) : (runCalls crm w calls).1.once = true := by
  induction calls generalizing w with
  | nil => exact h
  | cons c cs ih => exact ih (Call.run crm w c) (Call_run_once crm w c h)

theorem runCalls_append {R : Type} (crm : Registerer R) (w : PrometheusMetrics × R)
    (xs ys : List Call) : runCalls crm w (xs ++ ys) = runCalls crm (runCalls crm w xs) ys := by
  simp [runCalls, List.foldl_append]

theorem runCalls_cons {R : Type} (crm : Registerer R) (w : PrometheusMetrics × R)
    (c : Call) (cs : List Call) : runCalls crm w (c :: cs) = runCalls crm (Call.run crm w c) cs :=
  rfl

/-- Once a `Register` call is among the calls made, the guard has fired. -/
theorem once_after_Register {R : Type} (crm : Registerer R) (w : PrometheusMetrics × R)
    (before after : List Call) (visit : List (GoString × Desc) → List (GoString × Desc)) :
    (runCalls crm w (before ++ Call.Register visit :: after)).1.once = true := by
  rw [runCalls_append, runCalls_cons]
  exact runCalls_once crm after _ (Register_sets_once crm _ _ visit)

theorem registerAll_cons {R : Type} (crm : Registerer R) (r : Desc) (rs : List Desc) (reg : R) :
    registerAll crm (r :: rs) reg =
      if (crm.Register reg r).2.isSome then crm.Register reg r
      else registerAll crm rs (crm.Register reg r).1 := by
  rw [registerAll]

/-- The loop ends with an error exactly when, after a run of accepted collectors, one
is rejected; the error is that collector's, and the state is the one the rejecting call
left: the accepted collectors stay registered and the later ones are not tried. -/
theorem registerAll_error_iff {R : Type} (crm : Registerer R) (l : List Desc) (reg : R)
    (e : GoString) :
    (registerAll crm l reg).2 = some e ↔
      ∃ pre r post reg1, l = pre ++ r :: post ∧ Accepted crm reg pre reg1 ∧
        (crm.Register reg1 r).2 = some e ∧
        (registerAll crm l reg).1 = (crm.Register reg1 r).1 := by
  induction l generalizing reg with
  | nil =>
    constructor
    · intro h; simp [registerAll] at h
    · rintro ⟨pre, r, post, reg1, hl, -⟩
      simp at hl
  | cons x xs ih =>
    rw [registerAll_cons]
    by_cases hx : (crm.Register reg x).2.isSome = true
    · rw [if_pos hx]
      constructor
      · intro h
        exact ⟨[], x, xs, reg, rfl, rfl, h, rfl⟩
      · rintro ⟨pre, r, post, reg1, hl, hacc, herr, -⟩
        cases pre with
        | nil =>
          simp only [List.nil_append, List.cons.injEq] at hl
          obtain ⟨rfl, -⟩ := hl
          have : reg1 = reg := hacc
          rw [this] at herr
          exact herr
        | cons p ps =>
          simp only [List.cons_append, List.cons.injEq] at hl
          obtain ⟨rfl, -⟩ := hl
          have h1 : (crm.Register reg x).2 = none := hacc.1
          rw [h1] at hx
          simp at hx
    · rw [if_neg hx]
      have hnone : (crm.Register reg x).2 = none := by
        cases h : (crm.Register reg x).2 with
        | none => rfl
        | some v => rw [h] at hx; simp at hx
      rw [ih]
      constructor
      · rintro ⟨pre, r, post, reg1, hl, hacc, herr, hst⟩
        exact ⟨x :: pre, r, post, reg1, by rw [hl]; rfl, ⟨hnone, hacc⟩, herr, hst⟩
      · rintro ⟨pre, r, post, reg1, hl, hacc, herr, hst⟩
        cases pre with
        | nil =>
          simp only [List.nil_append, List.cons.injEq] at hl
          obtain ⟨rfl, -⟩ := hl
          have : reg1 = reg := hacc
          rw [this, hnone] at herr
          cases herr
        | cons p ps =>
          simp only [List.cons_append, List.cons.injEq] at hl
          obtain ⟨rfl, rfl⟩ := hl
          exact ⟨ps, r, post, reg1, rfl, hacc.2, herr, hst⟩

/-! ## Main results -/

/-- C1, as stated, fails: for a gslb whose namespace is not valid UTF-8 (here the bytes
of "ns" followed by 0xFF) the first `With` panics, on a fresh instance whose gauge is
instantiated, and no entry is set. -/
theorem UpdateIngressHostsPerStatusMetric_panics_on_invalid_namespace :
    ValidString [110, 115, 255] = false ∧
    demoMetrics.metrics.K8gbGslbServiceStatusNum.isSome = true ∧
    UpdateIngressHostsPerStatusMetric demoMetrics ⟨[110, 115, 255], str "test-gslb"⟩
      [(str "a.example.com", Healthy)] = none :=
  ⟨by decide, by decide, rfl⟩

/-- C1, amended.  For every gslb whose namespace and name are valid UTF-8 and every map
serviceHealth (given by its entries), UpdateIngressHostsPerStatusMetric on an instance
whose service-status gauge is instantiated sets the entries (namespace, name, "Healthy"),
(namespace, name, "Unhealthy") and (namespace, name, "NotFound") of that gauge to the
number of hosts whose status is Healthy, the number whose status is Unhealthy, and the
number of all remaining hosts; the three values sum to the number of entries, and for
the empty map all three are 0. -/
theorem UpdateIngressHostsPerStatusMetric_counts (m : PrometheusMetrics) (gslb : Gslb)
    (serviceHealth : List (GoString × HealthStatus)) (g : GaugeVec)
    (hg : m.metrics.K8gbGslbServiceStatusNum = some g)
    (hns : ValidString gslb.Namespace = true) (hname : ValidString gslb.Name = true) :
    ∃ m1 h u n,
      UpdateIngressHostsPerStatusMetric m gslb serviceHealth = some m1 ∧
      gaugeValue m1.metrics.K8gbGslbServiceStatusNum
        [gslb.Namespace, gslb.Name, str "Healthy"] = some h ∧
      gaugeValue m1.metrics.K8gbGslbServiceStatusNum
        [gslb.Namespace, gslb.Name, str "Unhealthy"] = some u ∧
      gaugeValue m1.metrics.K8gbGslbServiceStatusNum
        [gslb.Namespace, gslb.Name, str "NotFound"] = some n ∧
      h = serviceHealth.countP (fun e => decide (e.2 = Healthy)) ∧
      u = serviceHealth.countP (fun e => decide (e.2 = Unhealthy)) ∧
      n = serviceHealth.countP (fun e => decide (e.2 ≠ Healthy ∧ e.2 ≠ Unhealthy)) ∧
      h + u + n = serviceHealth.length ∧
      (serviceHealth = [] → h = 0 ∧ u = 0 ∧ n = 0) := by
  have k1 : [gslb.Namespace, gslb.Name, Healthy.String].all ValidString = true :=
    (all_valid_three _ _ _).2 ⟨hns, hname, by decide⟩
  have k2 : [gslb.Namespace, gslb.Name, Unhealthy.String].all ValidString = true :=
    (all_valid_three _ _ _).2 ⟨hns, hname, by decide⟩
  have k3 : [gslb.Namespace, gslb.Name, NotFound.String].all ValidString = true :=
    (all_valid_three _ _ _).2 ⟨hns, hname, by decide⟩
  have hrun : UpdateIngressHostsPerStatusMetric m gslb serviceHealth = some
      { m with metrics := { m.metrics with K8gbGslbServiceStatusNum := (some
        (((g.Set [gslb.Namespace, gslb.Name, Healthy.String] (countHosts serviceHealth).1).Set
          [gslb.Namespace, gslb.Name, Unhealthy.String] (countHosts serviceHealth).2.1).Set
          [gslb.Namespace, gslb.Name, NotFound.String] (countHosts serviceHealth).2.2)) } } := by
    simp only [UpdateIngressHostsPerStatusMetric, hg, Option.bind_eq_bind, Option.some_bind,
      WithSet_valid _ _ _ k1, WithSet_valid _ _ _ k2, WithSet_valid _ _ _ k3, pure]
  have e1 : str "Healthy" ≠ str "Unhealthy" := by decide
  have e2 : str "Healthy" ≠ str "NotFound" := by decide
  have e3 : str "Unhealthy" ≠ str "NotFound" := by decide
  refine ⟨_, _, _, _, hrun, ?_, ?_, ?_, rfl, rfl, rfl, countP_classes serviceHealth, ?_⟩
  · simp [gaugeValue, GaugeVec.Set, HealthStatus.String, Healthy, Unhealthy, NotFound, e1, e2,
      countHosts_eq]
  · simp [gaugeValue, GaugeVec.Set, HealthStatus.String, Healthy, Unhealthy, NotFound, e3,
      countHosts_eq]
  · simp [gaugeValue, GaugeVec.Set, HealthStatus.String, Healthy, Unhealthy, NotFound,
      countHosts_eq]
  · rintro rfl
    simp

/-- C1 amended at a concrete input: three hosts, one healthy, one unhealthy, one with
another status, on a freshly constructed instance. -/
theorem UpdateIngressHostsPerStatusMetric_counts_witness :
    ∃ m1 h u n,
      UpdateIngressHostsPerStatusMetric demoMetrics demoGslb
          [(str "a.example.com", Healthy), (str "b.example.com", Unhealthy),
           (str "c.example.com", str "Unknown")] = some m1 ∧
      gaugeValue m1.metrics.K8gbGslbServiceStatusNum
        [demoGslb.Namespace, demoGslb.Name, str "Healthy"] = some h ∧
      gaugeValue m1.metrics.K8gbGslbServiceStatusNum
        [demoGslb.Namespace, demoGslb.Name, str "Unhealthy"] = some u ∧
      gaugeValue m1.metrics.K8gbGslbServiceStatusNum
        [demoGslb.Namespace, demoGslb.Name, str "NotFound"] = some n ∧
      h = [(str "a.example.com", Healthy), (str "b.example.com", Unhealthy),
           (str "c.example.com", str "Unknown")].countP (fun e => decide (e.2 = Healthy)) ∧
      u = [(str "a.example.com", Healthy), (str "b.example.com", Unhealthy),
           (str "c.example.com", str "Unknown")].countP (fun e => decide (e.2 = Unhealthy)) ∧
      n = [(str "a.example.com", Healthy), (str "b.example.com", Unhealthy),
           (str "c.example.com", str "Unknown")].countP
            (fun e => decide (e.2 ≠ Healthy ∧ e.2 ≠ Unhealthy)) ∧
      h + u + n = [(str "a.example.com", Healthy), (str "b.example.com", Unhealthy),
           (str "c.example.com", str "Unknown")].length ∧
      ([(str "a.example.com", Healthy), (str "b.example.com", Unhealthy),
           (str "c.example.com", (str "Unknown" : HealthStatus))] = [] → h = 0 ∧ u = 0 ∧ n = 0) :=
  UpdateIngressHostsPerStatusMetric_counts demoMetrics demoGslb _ _ rfl (by decide) (by decide)

/-- The status labels of a strategy gauge for a reported status s: the entry of s
holds the number of targets, the other two hold 0. -/
theorem statusCounts_known (s : HealthStatus) (ts : List GoString)
    (hs : s = str "Healthy" ∨ s = str "Unhealthy" ∨ s = str "NotFound") :
    (statusCounts s ts).1 = (if str "Healthy" = s then ts.length else 0) ∧
    (statusCounts s ts).2.1 = (if str "Unhealthy" = s then ts.length else 0) ∧
    (statusCounts s ts).2.2 = (if str "NotFound" = s then ts.length else 0) := by
  have e1 : str "Healthy" ≠ str "Unhealthy" := by decide
  have e2 : str "Healthy" ≠ str "NotFound" := by decide
  have e3 : str "Unhealthy" ≠ str "NotFound" := by decide
  rcases hs with rfl | rfl | rfl
  · simp [statusCounts, Healthy, Unhealthy, NotFound, e1.symm, e2.symm]
  · simp [statusCounts, Healthy, Unhealthy, NotFound, e1, e1.symm, e3.symm]
  · simp [statusCounts, Healthy, Unhealthy, NotFound, e2, e2.symm, e3, e3.symm]

/-- C2, as stated, fails: for a gslb whose namespace is not valid UTF-8 (here the bytes
of "ns" followed by 0xFF) `With` panics in each of the three methods, on a fresh
instance whose gauges are instantiated, and no entry is set. -/
theorem Update_strategy_status_panics_on_invalid_namespace :
    ValidString [110, 115, 255] = false ∧
    UpdateFailoverStatus demoMetrics ⟨[110, 115, 255], str "test-gslb"⟩ true (str "Healthy")
      [str "10.0.0.1"] = none ∧
    UpdateRoundrobinStatus demoMetrics ⟨[110, 115, 255], str "test-gslb"⟩ (str "Healthy")
      [str "10.0.0.1"] = none ∧
    UpdateGeoIPStatus demoMetrics ⟨[110, 115, 255], str "test-gslb"⟩ (str "Healthy")
      [str "10.0.0.1"] = none :=
  ⟨by decide, rfl, rfl, rfl⟩

/-- C2, amended.  For every gslb whose namespace and name are valid UTF-8, every status
s among Healthy, Unhealthy, NotFound and every target list ts, on an instance whose
three strategy gauges are instantiated: UpdateFailoverStatus sets, in the failover
gauge, the entry whose status label is s followed by "_primary" (isPrimary true) or
"_secondary" (isPrimary false) to len(ts) and the two other equally tagged status
entries to 0; UpdateRoundrobinStatus and UpdateGeoIPStatus do the same on the
round-robin and GeoIP gauges with the untagged labels "Healthy", "Unhealthy",
"NotFound". -/
theorem Update_strategy_status (m : PrometheusMetrics) (gslb : Gslb) (isPrimary : Bool)
    (s : HealthStatus) (ts : List GoString) (gF gR gG : GaugeVec)
    (hF : m.metrics.K8gbGslbStatusCountForFailover = some gF)
    (hR : m.metrics.K8gbGslbStatusCountForRoundrobin = some gR)
    (hG : m.metrics.K8gbGslbStatusCountForGeoip = some gG)
    (hns : ValidString gslb.Namespace = true) (hname : ValidString gslb.Name = true)
    (hs : s = str "Healthy" ∨ s = str "Unhealthy" ∨ s = str "NotFound") :
    (∃ m1, UpdateFailoverStatus m gslb isPrimary s ts = some m1 ∧
      ∀ l ∈ [str "Healthy", str "Unhealthy", str "NotFound"],
        gaugeValue m1.metrics.K8gbGslbStatusCountForFailover
          [gslb.Namespace, gslb.Name,
            l ++ (if isPrimary then str "_primary" else str "_secondary")]
          = some (if l = s then ts.length else 0)) ∧
    (∃ m1, UpdateRoundrobinStatus m gslb s ts = some m1 ∧
      ∀ l ∈ [str "Healthy", str "Unhealthy", str "NotFound"],
        gaugeValue m1.metrics.K8gbGslbStatusCountForRoundrobin [gslb.Namespace, gslb.Name, l]
          = some (if l = s then ts.length else 0)) ∧
    (∃ m1, UpdateGeoIPStatus m gslb s ts = some m1 ∧
      ∀ l ∈ [str "Healthy", str "Unhealthy", str "NotFound"],
        gaugeValue m1.metrics.K8gbGslbStatusCountForGeoip [gslb.Namespace, gslb.Name, l]
          = some (if l = s then ts.length else 0)) := by
  obtain ⟨c1, c2, c3⟩ := statusCounts_known s ts hs
  have hempty : ValidString (str "") = true := by decide
  refine ⟨?_, ?_, ?_⟩
  · obtain ⟨m1, g1, hrun, hg1, hH, hU, hN⟩ :=
      UpdateFailoverStatus_tagged m gslb isPrimary s ts gF hF hns hname
    refine ⟨m1, hrun, ?_⟩
    intro l hl
    simp only [List.mem_cons, List.mem_singleton, List.not_mem_nil, or_false] at hl
    rcases hl with rfl | rfl | rfl
    · simpa [gaugeValue, hg1, c1] using hH
    · simpa [gaugeValue, hg1, c2] using hU
    · simpa [gaugeValue, hg1, c3] using hN
  · obtain ⟨g1, hrun, hH, hU, hN, -, -⟩ :=
      updateRuntimeStatus_some gslb gR s ts (str "") hns hname hempty
    refine ⟨_, by simp only [UpdateRoundrobinStatus, hR, hrun]; rfl, ?_⟩
    intro l hl
    simp only [List.mem_cons, List.mem_singleton, List.not_mem_nil, or_false] at hl
    rcases hl with rfl | rfl | rfl
    · simpa [gaugeValue, c1, str] using hH
    · simpa [gaugeValue, c2, str] using hU
    · simpa [gaugeValue, c3, str] using hN
  · obtain ⟨g1, hrun, hH, hU, hN, -, -⟩ :=
      updateRuntimeStatus_some gslb gG s ts (str "") hns hname hempty
    refine ⟨_, by simp only [UpdateGeoIPStatus, hG, hrun]; rfl, ?_⟩
    intro l hl
    simp only [List.mem_cons, List.mem_singleton, List.not_mem_nil, or_false] at hl
    rcases hl with rfl | rfl | rfl
    · simpa [gaugeValue, c1, str] using hH
    · simpa [gaugeValue, c2, str] using hU
    · simpa [gaugeValue, c3, str] using hN

/-- C2 amended at a concrete input: an Unhealthy report with two targets on a fresh
instance, as primary. -/
theorem Update_strategy_status_witness :
    (∃ m1, UpdateFailoverStatus demoMetrics demoGslb true (str "Unhealthy")
        [str "10.0.0.1", str "10.0.0.2"] = some m1 ∧
      ∀ l ∈ [str "Healthy", str "Unhealthy", str "NotFound"],
        gaugeValue m1.metrics.K8gbGslbStatusCountForFailover
          [demoGslb.Namespace, demoGslb.Name,
            l ++ (if true then str "_primary" else str "_secondary")]
          = some (if l = str "Unhealthy" then [str "10.0.0.1", str "10.0.0.2"].length else 0)) ∧
    (∃ m1, UpdateRoundrobinStatus demoMetrics demoGslb (str "Unhealthy")
        [str "10.0.0.1", str "10.0.0.2"] = some m1 ∧
      ∀ l ∈ [str "Healthy", str "Unhealthy", str "NotFound"],
        gaugeValue m1.metrics.K8gbGslbStatusCountForRoundrobin
          [demoGslb.Namespace, demoGslb.Name, l]
          = some (if l = str "Unhealthy" then [str "10.0.0.1", str "10.0.0.2"].length else 0)) ∧
    (∃ m1, UpdateGeoIPStatus demoMetrics demoGslb (str "Unhealthy")
        [str "10.0.0.1", str "10.0.0.2"] = some m1 ∧
      ∀ l ∈ [str "Healthy", str "Unhealthy", str "NotFound"],
        gaugeValue m1.metrics.K8gbGslbStatusCountForGeoip [demoGslb.Namespace, demoGslb.Name, l]
          = some (if l = str "Unhealthy" then [str "10.0.0.1", str "10.0.0.2"].length else 0)) :=
  Update_strategy_status demoMetrics demoGslb true (str "Unhealthy")
    [str "10.0.0.1", str "10.0.0.2"] _ _ _ rfl rfl rfl (by decide) (by decide) (Or.inr (Or.inl rfl))

/-- C3, as stated, fails.  Reporting healthy targets [a, b], no unhealthy targets and
not-found targets [c] as primary on a fresh instance, one call per status, leaves
Healthy_primary = 0, Unhealthy_primary = 0, NotFound_primary = 1, not 2, 0, 1; and no
call of UpdateFailoverStatus at all, on any instance, leaves the entries at 2, 0, 1. -/
theorem UpdateFailoverStatus_not_aggregating :
    ((UpdateFailoverStatus demoMetrics demoGslb true Healthy [str "a", str "b"]).bind fun m1 =>
      (UpdateFailoverStatus m1 demoGslb true Unhealthy []).bind fun m2 =>
        (UpdateFailoverStatus m2 demoGslb true NotFound [str "c"]).map fun m3 =>
          failoverPrimary m3 demoGslb) = some (some 0, some 0, some 1) ∧
    ¬ ∃ (m : PrometheusMetrics) (gslb : Gslb) (s : HealthStatus) (ts : List GoString)
        (m1 : PrometheusMetrics),
        UpdateFailoverStatus m gslb true s ts = some m1 ∧
        failoverPrimary m1 gslb = (some 2, some 0, some 1) := by
  constructor
  · decide
  · rintro ⟨m, gslb, s, ts, m1, hrun, hval⟩
    obtain ⟨g, hF, hns, hname⟩ := UpdateFailoverStatus_returns m m1 gslb true s ts hrun
    obtain ⟨m2, g1, hrun2, -, hval2⟩ := UpdateFailoverStatus_primary m gslb s ts g hF hns hname
    rw [hrun] at hrun2
    cases hrun2
    rw [hval] at hval2
    rcases statusCounts_cases s ts with h | h | h | h <;> rw [h] at hval2 <;>
      simp at hval2

/-- C3, amended.  On an instance whose failover gauge is instantiated and for a gslb
whose namespace and name are valid UTF-8, every UpdateFailoverStatus call reports one
status, among Healthy, Unhealthy and NotFound, with its targets and rewrites all three
entries tagged for its side ("_primary" for isPrimary = true, "_secondary" for false):
the entry of the reported status gets len(targets), the two others 0.  With
isPrimary = true, reporting (Healthy, [a, b]) leaves 2, 0, 0, and the further reports
(Unhealthy, []) and (NotFound, [c]) leave 0, 0, 1. -/
theorem UpdateFailoverStatus_last_report (m : PrometheusMetrics) (gslb : Gslb) (g : GaugeVec)
    (hF : m.metrics.K8gbGslbStatusCountForFailover = some g)
    (hns : ValidString gslb.Namespace = true) (hname : ValidString gslb.Name = true) :
    (∀ (s : HealthStatus) (ts : List GoString), s = Healthy ∨ s = Unhealthy ∨ s = NotFound →
      (∃ m1, UpdateFailoverStatus m gslb true s ts = some m1 ∧
        failoverPrimary m1 gslb =
          (some (if s = Healthy then ts.length else 0),
           some (if s = Unhealthy then ts.length else 0),
           some (if s = NotFound then ts.length else 0))) ∧
      (∃ m1, UpdateFailoverStatus m gslb false s ts = some m1 ∧
        failoverSecondary m1 gslb =
          (some (if s = Healthy then ts.length else 0),
           some (if s = Unhealthy then ts.length else 0),
           some (if s = NotFound then ts.length else 0)))) ∧
    (∀ a b c : GoString, ∃ m1 m2 m3,
      UpdateFailoverStatus m gslb true Healthy [a, b] = some m1 ∧
      UpdateFailoverStatus m1 gslb true Unhealthy [] = some m2 ∧
      UpdateFailoverStatus m2 gslb true NotFound [c] = some m3 ∧
      failoverPrimary m1 gslb = (some 2, some 0, some 0) ∧
      failoverPrimary m3 gslb = (some 0, some 0, some 1)) := by
  constructor
  · intro s ts hs
    have hcounts : ((statusCounts s ts).1, (statusCounts s ts).2.1, (statusCounts s ts).2.2)
        = ((if s = Healthy then ts.length else 0), (if s = Unhealthy then ts.length else 0),
           (if s = NotFound then ts.length else 0)) := by
      rcases hs with rfl | rfl | rfl
      · rw [statusCounts_Healthy]
        simp [Healthy_ne_Unhealthy, Healthy_ne_NotFound]
      · rw [statusCounts_Unhealthy]
        simp [Healthy_ne_Unhealthy.symm, Unhealthy_ne_NotFound]
      · rw [statusCounts_NotFound]
        simp [Healthy_ne_NotFound.symm, Unhealthy_ne_NotFound.symm]
    have h1 : (statusCounts s ts).1 = (if s = Healthy then ts.length else 0) :=
      congrArg (fun p => p.1) hcounts
    have h2 : (statusCounts s ts).2.1 = (if s = Unhealthy then ts.length else 0) :=
      congrArg (fun p => p.2.1) hcounts
    have h3 : (statusCounts s ts).2.2 = (if s = NotFound then ts.length else 0) :=
      congrArg (fun p => p.2.2) hcounts
    constructor
    · obtain ⟨m1, g1, hrun, hg1, hH, hU, hN⟩ :=
        UpdateFailoverStatus_tagged m gslb true s ts g hF hns hname
      refine ⟨m1, hrun, ?_⟩
      rw [h1] at hH; rw [h2] at hU; rw [h3] at hN
      simp only [failoverPrimary, gaugeValue, hg1, Option.some_bind]
      exact Prod.ext hH (Prod.ext hU hN)
    · obtain ⟨m1, g1, hrun, hg1, hH, hU, hN⟩ :=
        UpdateFailoverStatus_tagged m gslb false s ts g hF hns hname
      refine ⟨m1, hrun, ?_⟩
      rw [h1] at hH; rw [h2] at hU; rw [h3] at hN
      simp only [failoverSecondary, gaugeValue, hg1, Option.some_bind]
      exact Prod.ext hH (Prod.ext hU hN)
  · intro a b c
    obtain ⟨m1, g1, hrun1, hg1, hval1⟩ :=
      UpdateFailoverStatus_primary m gslb Healthy [a, b] g hF hns hname
    obtain ⟨m2, g2, hrun2, hg2, -⟩ :=
      UpdateFailoverStatus_primary m1 gslb Unhealthy [] g1 hg1 hns hname
    obtain ⟨m3, g3, hrun3, -, hval3⟩ :=
      UpdateFailoverStatus_primary m2 gslb NotFound [c] g2 hg2 hns hname
    refine ⟨m1, m2, m3, hrun1, hrun2, hrun3, ?_, ?_⟩
    · rw [hval1, statusCounts_Healthy]; rfl
    · rw [hval3, statusCounts_NotFound]; rfl

/-- C3 amended, on a fresh instance: the report (Healthy, [a, b]) alone, as primary and
as secondary, and the three primary reports in a row. -/
theorem UpdateFailoverStatus_last_report_witness :
    ((∃ m1, UpdateFailoverStatus demoMetrics demoGslb true Healthy [str "a", str "b"] = some m1 ∧
        failoverPrimary m1 demoGslb =
          (some (if Healthy = Healthy then [str "a", str "b"].length else 0),
           some (if Healthy = Unhealthy then [str "a", str "b"].length else 0),
           some (if Healthy = NotFound then [str "a", str "b"].length else 0))) ∧
      (∃ m1, UpdateFailoverStatus demoMetrics demoGslb false Healthy [str "a", str "b"] = some m1 ∧
        failoverSecondary m1 demoGslb =
          (some (if Healthy = Healthy then [str "a", str "b"].length else 0),
           some (if Healthy = Unhealthy then [str "a", str "b"].length else 0),
           some (if Healthy = NotFound then [str "a", str "b"].length else 0)))) ∧
    (∃ m1 m2 m3,
      UpdateFailoverStatus demoMetrics demoGslb true Healthy [str "a", str "b"] = some m1 ∧
      UpdateFailoverStatus m1 demoGslb true Unhealthy [] = some m2 ∧
      UpdateFailoverStatus m2 demoGslb true NotFound [str "c"] = some m3 ∧
      failoverPrimary m1 demoGslb = (some 2, some 0, some 0) ∧
      failoverPrimary m3 demoGslb = (some 0, some 0, some 1)) :=
  ⟨(UpdateFailoverStatus_last_report demoMetrics demoGslb _ rfl (by decide) (by decide)).1
      Healthy [str "a", str "b"] (Or.inl rfl),
    (UpdateFailoverStatus_last_report demoMetrics demoGslb _ rfl (by decide) (by decide)).2
      (str "a") (str "b") (str "c")⟩

/-- C4 fails on the code.  A status that is none of the three constants (here "Unknown",
and likewise the empty status) reaches no case of the switch: with one target and the
empty tag, on the instantiated round-robin gauge of a fresh instance,
updateRuntimeStatus writes 0, 0 and 0, which sum to 0 and not to len(targets) = 1. -/
theorem updateRuntimeStatus_unknown_status_drops_targets :
    ((updateRuntimeStatus demoGslb demoMetrics.metrics.K8gbGslbStatusCountForRoundrobin
        (str "Unknown") [str "10.0.0.1"] (str "")).map fun g1 =>
      (g1.values [demoGslb.Namespace, demoGslb.Name, str "Healthy"],
       g1.values [demoGslb.Namespace, demoGslb.Name, str "Unhealthy"],
       g1.values [demoGslb.Namespace, demoGslb.Name, str "NotFound"]))
      = some (some 0, some 0, some 0) ∧
    ((updateRuntimeStatus demoGslb demoMetrics.metrics.K8gbGslbStatusCountForRoundrobin
        (str "") [str "10.0.0.1"] (str "")).map fun g1 =>
      (g1.values [demoGslb.Namespace, demoGslb.Name, str "Healthy"],
       g1.values [demoGslb.Namespace, demoGslb.Name, str "Unhealthy"],
       g1.values [demoGslb.Namespace, demoGslb.Name, str "NotFound"]))
      = some (some 0, some 0, some 0) ∧
    0 + 0 + 0 ≠ [str "10.0.0.1"].length := by
  refine ⟨by decide, by decide, by decide⟩

/-- C5, as stated, fails: the commit "abcdefé" is valid UTF-8 and 8 bytes long, its cut
to 7 bytes ends in the first byte of the two-byte character and is not valid UTF-8, so
`With` panics, on a fresh instance whose gauge is instantiated, and no value is set. -/
theorem SetRuntimeInfo_panics_on_split_character :
    str "abcdefé" = [97, 98, 99, 100, 101, 102, 195, 169] ∧
    ValidString (str "abcdefé") = true ∧
    firstN (str "abcdefé") 7 = [97, 98, 99, 100, 101, 102, 195] ∧
    ValidString (firstN (str "abcdefé") 7) = false ∧
    demoMetrics.metrics.K8gbRuntimeInfo.isSome = true ∧
    SetRuntimeInfo ⟨str "go1.22.0", str "amd64", str "linux"⟩ demoMetrics (str "v0.11.4")
      (str "abcdefé") = none :=
  ⟨by decide, by decide, by decide, by decide, by decide, rfl⟩

/-- C5, amended.  For every commit string c, the cut firstN(c, 7) is the prefix of c of
length min(len(c), 7): a commit of 7 or more bytes is cut to exactly its first 7
("abcdef1234" gives "abcdef1"), a shorter commit, the empty one included, passes through
unchanged ("ab" gives "ab").  When that prefix is valid UTF-8, as it is for every commit
of ASCII bytes, and the namespace, the version and the runtime labels are valid UTF-8,
SetRuntimeInfo on an instance whose runtime-info gauge is instantiated sets the value 1
at the entry whose git_sha label is that prefix and writes no other entry. -/
theorem SetRuntimeInfo_git_sha (rt : Runtime) (m : PrometheusMetrics) (version commit : GoString)
    (g : GaugeVec) (hg : m.metrics.K8gbRuntimeInfo = some g)
    (hns : ValidString m.config.K8gbNamespace = true) (hver : ValidString version = true)
    (hrt : ValidString rt.Version = true ∧ ValidString rt.GOARCH = true ∧
      ValidString rt.GOOS = true) :
    (ValidString (commit.take (min commit.length 7)) = true →
      ∃ m1, SetRuntimeInfo rt m version commit = some m1 ∧
        gaugeValue m1.metrics.K8gbRuntimeInfo
          [m.config.K8gbNamespace, version, rt.Version, rt.GOARCH, rt.GOOS,
            commit.take (min commit.length 7)] = some 1 ∧
        ∀ k, k ≠ [m.config.K8gbNamespace, version, rt.Version, rt.GOARCH, rt.GOOS,
            commit.take (min commit.length 7)] →
          gaugeValue m1.metrics.K8gbRuntimeInfo k = g.values k) ∧
    ((∀ b ∈ commit, b < 128) → ValidString (commit.take (min commit.length 7)) = true) ∧
    firstN commit 7 = commit.take (min commit.length 7) ∧
    firstN commit 7 <+: commit ∧
    (firstN commit 7).length = min commit.length 7 ∧
    (7 ≤ commit.length → firstN commit 7 = commit.take 7 ∧ (firstN commit 7).length = 7) ∧
    (commit.length < 7 → firstN commit 7 = commit) ∧
    firstN (str "abcdef1234") 7 = str "abcdef1" ∧
    firstN (str "ab") 7 = str "ab" ∧
    firstN (str "") 7 = str "" := by
  have hfirst : firstN commit 7 = commit.take (min commit.length 7) := by
    unfold firstN
    split_ifs with h
    · rw [Nat.min_eq_left (Nat.le_of_lt h), List.take_length]
    · rw [Nat.min_eq_right (Nat.le_of_not_lt h)]
  refine ⟨?_, ?_, hfirst, ?_, ?_, ?_, ?_, by decide, by decide, by decide⟩
  · intro hc
    have hk : [m.config.K8gbNamespace, version, rt.Version, rt.GOARCH, rt.GOOS,
        firstN commit 7].all ValidString = true := by
      rw [hfirst]
      simp [List.all_cons, hns, hver, hrt.1, hrt.2.1, hrt.2.2, hc]
    refine ⟨{ m with metrics := { m.metrics with K8gbRuntimeInfo := (some (g.Set
        [m.config.K8gbNamespace, version, rt.Version, rt.GOARCH, rt.GOOS, firstN commit 7]
        1)) } }, ?_, ?_, ?_⟩
    · simp only [SetRuntimeInfo, hg, Option.bind_eq_bind, Option.some_bind,
        WithSet_valid _ _ _ hk, pure]
    · simp [gaugeValue, GaugeVec.Set, hfirst]
    · intro k hk
      rw [← hfirst] at hk
      simp [gaugeValue, GaugeVec.Set, hk]
  · intro hascii
    exact ValidString_of_ascii _ fun b hb => hascii b (List.mem_of_mem_take hb)
  · rw [hfirst]; exact List.take_prefix _ _
  · rw [hfirst, List.length_take]; omega
  · intro h
    rw [hfirst, Nat.min_eq_right h, List.length_take]
    exact ⟨rfl, by omega⟩
  · intro h
    rw [hfirst, Nat.min_eq_left (Nat.le_of_lt h), List.take_length]

/-- C5 amended at a concrete input: the commit "abcdef1234" on a fresh instance. -/
theorem SetRuntimeInfo_git_sha_witness :
    (∃ m1, SetRuntimeInfo ⟨str "go1.22.0", str "amd64", str "linux"⟩ demoMetrics (str "v0.11.4")
        (str "abcdef1234") = some m1 ∧
      gaugeValue m1.metrics.K8gbRuntimeInfo
        [str "k8gb", str "v0.11.4", str "go1.22.0", str "amd64", str "linux", str "abcdef1"]
        = some 1) ∧
    firstN (str "abcdef1234") 7 <+: str "abcdef1234" :=
  have h := SetRuntimeInfo_git_sha ⟨str "go1.22.0", str "amd64", str "linux"⟩ demoMetrics
    (str "v0.11.4") (str "abcdef1234") _ rfl (by decide) (by decide) (by decide)
  ⟨(h.1 (by decide)).imp fun _ hm => ⟨hm.1, hm.2.1⟩, h.2.2.2.1⟩

/-- C9, as stated, fails: the three endpoints below have pairwise distinct DNS names,
the second of which (the bytes of "bad" followed by 0xC3) is not valid UTF-8; `With`
panics at the second endpoint, on a fresh instance whose gauge is instantiated, so the
call does not return and the third entry is never set. -/
theorem UpdateEndpointStatus_panics_on_invalid_dns_name :
    ([str "a.example.com", [98, 97, 100, 195], str "c.example.com"] : List GoString).Nodup ∧
    ValidString [98, 97, 100, 195] = false ∧
    demoMetrics.metrics.K8gbEndpointStatusNum.isSome = true ∧
    UpdateEndpointStatus demoMetrics
      ⟨str "test-ns", str "test-ep",
        ⟨[some ⟨str "a.example.com", [str "10.0.0.1"]⟩,
          some ⟨[98, 97, 100, 195], [str "10.0.0.2"]⟩,
          some ⟨str "c.example.com", []⟩]⟩⟩ = none :=
  ⟨by decide, by decide, by decide, rfl⟩

/-- C9, amended.  For every DNSEndpoint ep whose namespace and name are valid UTF-8 and
whose endpoints are non-nil and have pairwise distinct, valid UTF-8 DNS names, on an
instance whose endpoint-status gauge is instantiated, UpdateEndpointStatus leaves the
gauge holding len(e.Targets) at (ep.Namespace, ep.Name, e.DNSName) for each endpoint e
and leaves every entry with another label tuple, and everything else on the instance,
unchanged; for an empty endpoint list nothing is written. -/
theorem UpdateEndpointStatus_entries (m : PrometheusMetrics) (ep : DNSEndpoint) (g : GaugeVec)
    (es : List Endpoint)
    (hg : m.metrics.K8gbEndpointStatusNum = some g)
    (hes : ep.Spec.Endpoints = es.map some)
    (hns : ValidString ep.Namespace = true) (hname : ValidString ep.Name = true)
    (hdns : ∀ e ∈ es, ValidString e.DNSName = true)
    (hnd : (es.map fun e => e.DNSName).Nodup) :
    (∃ g1, UpdateEndpointStatus m ep
        = some { m with metrics := { m.metrics with K8gbEndpointStatusNum := (some g1) } } ∧
      g1.desc = g.desc ∧
      (∀ e ∈ es, g1.values [ep.Namespace, ep.Name, e.DNSName] = some e.Targets.length) ∧
      (∀ k, (∀ e ∈ es, k ≠ [ep.Namespace, ep.Name, e.DNSName]) →
        g1.values k = g.values k)) ∧
    (ep.Spec.Endpoints = [] → UpdateEndpointStatus m ep = some m) := by
  constructor
  · unfold UpdateEndpointStatus
    rw [hes]
    exact UpdateEndpointStatus_loop ep.Namespace ep.Name es m g hg hns hname hdns hnd
  · intro h
    simp [UpdateEndpointStatus, h]

/-- C9 amended at a concrete input: two DNS names with 3 and 0 targets on a fresh
instance give two entries holding exactly 3 and 0. -/
theorem UpdateEndpointStatus_entries_witness :
    ∃ g1, UpdateEndpointStatus demoMetrics demoEndpoint
        = some { demoMetrics with metrics :=
            { demoMetrics.metrics with K8gbEndpointStatusNum := (some g1) } } ∧
      g1.values [str "test-ns", str "test-ep", str "a.example.com"] = some 3 ∧
      g1.values [str "test-ns", str "test-ep", str "b.example.com"] = some 0 := by
  obtain ⟨⟨g1, hrun, -, hval, -⟩, -⟩ :=
    UpdateEndpointStatus_entries demoMetrics demoEndpoint _
      [⟨str "a.example.com", [str "10.0.0.1", str "10.0.0.2", str "10.0.0.3"]⟩,
       ⟨str "b.example.com", []⟩]
      rfl rfl (by decide) (by decide) (by decide) (by decide)
  exact ⟨g1, hrun,
    hval ⟨str "a.example.com", [str "10.0.0.1", str "10.0.0.2", str "10.0.0.3"]⟩ (by simp),
    hval ⟨str "b.example.com", []⟩ (by simp)⟩

/-- C10. For each of the 14 fields of collectors the key that registry derives from
the field name equals the Name its collector is constructed with in init, the value of
the corresponding constant (field K8gbGslbErrorsTotal gives "k8gb_gslb_errors_total",
field K8gbGslbStatusCountForGeoip gives "k8gb_gslb_status_count_for_geoip", the value of
K8gbGslbStatusCountForGeoIP); so after init registry returns exactly 14 entries, one per
declared metric name, each keyed by the Name of its collector. -/
theorem registry_keys_are_metric_names (config : Config) :
    (newPrometheusMetrics config).metrics.fields.length = 14 ∧
    (∀ f ∈ (newPrometheusMetrics config).metrics.fields,
      f.2.map (fun d => d.Name) = some (canonicalName f.1)) ∧
    canonicalName (str "K8gbGslbErrorsTotal") = str "k8gb_gslb_errors_total" ∧
    canonicalName (str "K8gbGslbStatusCountForGeoip") = str "k8gb_gslb_status_count_for_geoip" ∧
    K8gbGslbStatusCountForGeoIP = str "k8gb_gslb_status_count_for_geoip" ∧
    (registry (newPrometheusMetrics config)).length = 14 ∧
    (registry (newPrometheusMetrics config)).map (fun kv => kv.1)
      = [K8gbGslbHealthyRecords, K8gbGslbServiceStatusNum, K8gbGslbStatusCountForFailover,
         K8gbGslbStatusCountForRoundrobin, K8gbGslbStatusCountForGeoIP, K8gbGslbErrorsTotal,
         K8gbGslbReconciliationLoopsTotal, K8gbInfobloxRequestDuration,
         K8gbInfobloxZoneUpdatesTotal, K8gbInfobloxZoneUpdateErrorsTotal,
         K8gbInfobloxHeartbeatsTotal, K8gbInfobloxHeartbeatErrorsTotal, K8gbEndpointStatusNum,
         K8gbRuntimeInfo] ∧
    (∀ kv ∈ registry (newPrometheusMetrics config), kv.1 = kv.2.Name) := by
  have hm : (newPrometheusMetrics config).metrics = demoMetrics.metrics := rfl
  have hr : registry (newPrometheusMetrics config) = registry demoMetrics := rfl
  rw [hm, hr]
  refine ⟨by decide, by decide, by decide, by decide, by decide, by decide, by decide, by decide⟩

/-- C10 for the instance of namespace "k8gb", at the field K8gbInfobloxZoneUpdateErrorsTotal:
the derived key is the Name of its collector, k8gb_infoblox_zone_update_errors_total. -/
theorem registry_keys_are_metric_names_witness :
    (some (NewCounterVec K8gbInfobloxZoneUpdateErrorsTotal
        (str "Number of K8GB Infoblox zone update errors.") [str "namespace", str "name"]).desc).map
        (fun d => d.Name)
      = some (canonicalName (str "K8gbInfobloxZoneUpdateErrorsTotal")) ∧
    (registry (newPrometheusMetrics ⟨str "k8gb"⟩)).length = 14 :=
  ⟨(registry_keys_are_metric_names ⟨str "k8gb"⟩).2.1
      (str "K8gbInfobloxZoneUpdateErrorsTotal",
        some (NewCounterVec K8gbInfobloxZoneUpdateErrorsTotal
          (str "Number of K8GB Infoblox zone update errors.") [str "namespace", str "name"]).desc)
      (by decide),
    (registry_keys_are_metric_names ⟨str "k8gb"⟩).2.2.2.2.2.1⟩

/-- C8. The name derivation of registry (split immediately before every uppercase
letter, join the non-empty fragments with "_", lower-case) is injective on identifiers
composed of capitalized word segments (an uppercase letter A to Z followed by zero or
more lowercase letters a to z or digits, one or more times): two distinct such
identifiers have different derived names.  The 14 field names of collectors are such
identifiers and their 14 derived names are pairwise distinct. -/
theorem canonicalName_injective :
    (∀ a b : GoString, IsCapitalizedWords a → IsCapitalizedWords b → a ≠ b →
      canonicalName a ≠ canonicalName b) ∧
    (∀ f ∈ collectors.zero.fields, IsCapitalizedWords f.1) ∧
    collectors.zero.fields.length = 14 ∧
    (collectors.zero.fields.map fun f => canonicalName f.1).Nodup := by
  refine ⟨?_, ?_, by decide, by decide⟩
  · intro a b ha hb hne h
    exact hne (canonicalName_inj a b ((isCapitalizedWords_iff a).2 ha)
      ((isCapitalizedWords_iff b).2 hb) h)
  · intro f hf
    have hall : ∀ f ∈ collectors.zero.fields, isCapitalizedWords f.1 = true := by decide
    exact (isCapitalizedWords_iff f.1).1 (hall f hf)

/-- C8 at a concrete input: the identifiers AbC (segments Ab, C) and ABc (segments A, Bc)
differ, and so do their derived names ab_c and a_bc. -/
theorem canonicalName_injective_witness :
    canonicalName (str "AbC") ≠ canonicalName (str "ABc") ∧
    canonicalName (str "AbC") = str "ab_c" ∧ canonicalName (str "ABc") = str "a_bc" :=
  ⟨canonicalName_injective.1 (str "AbC") (str "ABc")
      ⟨[str "Ab", str "C"], by decide, by decide, by decide⟩
      ⟨[str "A", str "Bc"], by decide, by decide, by decide⟩ (by decide),
    by decide, by decide⟩

/-- C6. On one instance only the first Register call runs the registration loop.  For
every external collector: (1) a Register call on an instance whose guard has not fired
runs the loop over registry() and fires the guard; (2) after any sequence of calls that
contains a Register call (with Unregister and recording calls before or after it), a
further Register call leaves the instance and the collector state exactly as they
were and returns no error; (3) so two Register calls in a row leave the collector in
the state the single loop of the first call produced: nothing is registered twice. -/
theorem Register_only_first_runs {R : Type} (crm : Registerer R) :
    (∀ (m : PrometheusMetrics) (reg : R) (visit : List (GoString × Desc) → List (GoString × Desc)),
      m.once = false →
      Register crm m reg visit =
        ({ m with once := true },
         (registerAll crm ((visit (registry m)).map fun kv => kv.2) reg).1,
         (registerAll crm ((visit (registry m)).map fun kv => kv.2) reg).2.map fun err =>
           str "can't register prometheus metrics: " ++ err)) ∧
    (∀ (w : PrometheusMetrics × R) (before after : List Call)
        (visit1 visit2 : List (GoString × Desc) → List (GoString × Desc)),
      Register crm (runCalls crm w (before ++ Call.Register visit1 :: after)).1
          (runCalls crm w (before ++ Call.Register visit1 :: after)).2 visit2
        = ((runCalls crm w (before ++ Call.Register visit1 :: after)).1,
           (runCalls crm w (before ++ Call.Register visit1 :: after)).2, none)) ∧
    (∀ (m : PrometheusMetrics) (reg : R)
        (visit1 visit2 : List (GoString × Desc) → List (GoString × Desc)),
      m.once = false →
      (runCalls crm (m, reg) [Call.Register visit1, Call.Register visit2]).2
        = (registerAll crm ((visit1 (registry m)).map fun kv => kv.2) reg).1) := by
  refine ⟨?_, ?_, ?_⟩
  · intro m reg visit h
    simp [Register, h]
  · intro w before after visit1 visit2
    exact Register_of_once crm _ _ visit2 (once_after_Register crm w before after visit1)
  · intro m reg visit1 visit2 h
    have h2 := Register_of_once crm (Register crm m reg visit1).1 (Register crm m reg visit1).2.1
      visit2 (Register_sets_once crm m reg visit1)
    simp only [runCalls, List.foldl_cons, List.foldl_nil, Call.run]
    rw [h2]
    simp [Register, h]

/-- C6 at a concrete input, with a collector that rejects duplicate names, starting from
a fresh instance and an empty collector: two Register calls register the 14 collectors
once each; and after Register, Unregister, Register the collector is empty, the second
Register not registering anything again. -/
theorem Register_only_first_runs_witness :
    (runCalls nameRegistry (demoMetrics, []) [Call.Register id, Call.Register id]).2
      = (registerAll nameRegistry ((id (registry demoMetrics)).map fun kv => kv.2) []).1 ∧
    (runCalls nameRegistry (demoMetrics, []) [Call.Register id, Call.Register id]).2.map
        (fun d => d.Name)
      = [K8gbGslbHealthyRecords, K8gbGslbServiceStatusNum, K8gbGslbStatusCountForFailover,
         K8gbGslbStatusCountForRoundrobin, K8gbGslbStatusCountForGeoIP, K8gbGslbErrorsTotal,
         K8gbGslbReconciliationLoopsTotal, K8gbInfobloxRequestDuration,
         K8gbInfobloxZoneUpdatesTotal, K8gbInfobloxZoneUpdateErrorsTotal,
         K8gbInfobloxHeartbeatsTotal, K8gbInfobloxHeartbeatErrorsTotal, K8gbEndpointStatusNum,
         K8gbRuntimeInfo] ∧
    (runCalls nameRegistry (demoMetrics, [])
        [Call.Register id, Call.Unregister id, Call.Register id]).2 = [] :=
  ⟨(Register_only_first_runs nameRegistry).2.2 demoMetrics [] id id rfl, by decide, by decide⟩

/-- C7. Register returns an error if and only if the guard has not fired yet (it is
the first Register call on the instance) and the external collector rejects one of the
collectors of registry(): the collectors visited before it were accepted, the loop
stopped at it, the error is the collector's error behind the text
"can't register prometheus metrics: ", and the collector state is the one the rejecting
call left, the accepted collectors still registered.  Every later Register call
returns no error, whether or not this one failed. -/
theorem Register_error {R : Type} (crm : Registerer R) (m : PrometheusMetrics) (reg : R)
    (visit : List (GoString × Desc) → List (GoString × Desc)) :
    (∀ msg : GoString, (Register crm m reg visit).2.2 = some msg ↔
      (m.once = false ∧
        ∃ pre r post reg1 e,
          ((visit (registry m)).map fun kv => kv.2) = pre ++ r :: post ∧
          Accepted crm reg pre reg1 ∧
          (crm.Register reg1 r).2 = some e ∧
          msg = str "can't register prometheus metrics: " ++ e ∧
          (Register crm m reg visit).2.1 = (crm.Register reg1 r).1)) ∧
    (∀ visit2 : List (GoString × Desc) → List (GoString × Desc),
      (Register crm (Register crm m reg visit).1 (Register crm m reg visit).2.1 visit2).2.2
        = none) := by
  constructor
  · intro msg
    by_cases h : m.once = true
    · rw [Register_of_once crm m reg visit h]
      simp [h]
    · have h0 : m.once = false := by simpa using h
      simp only [Register, h0, Bool.false_eq_true, if_false, Option.map_eq_some', true_and]
      constructor
      · rintro ⟨e, he, rfl⟩
        obtain ⟨pre, r, post, reg1, hl, hacc, herr, hst⟩ :=
          (registerAll_error_iff crm _ reg e).1 he
        exact ⟨pre, r, post, reg1, e, hl, hacc, herr, rfl, hst⟩
      · rintro ⟨pre, r, post, reg1, e, hl, hacc, herr, rfl, hst⟩
        exact ⟨e, (registerAll_error_iff crm _ reg e).2 ⟨pre, r, post, reg1, hl, hacc, herr, hst⟩,
          rfl⟩
  · intro visit2
    rw [Register_of_once crm _ _ visit2 (Register_sets_once crm m reg visit)]

/-- C7 at a concrete input: a fresh instance, the fields visited in declaration order,
and a collector that already holds the name of the third field.  The first Register
call returns the wrapped duplicate-registration error, after the first two collectors
were accepted; they stay registered; a second call returns no error. -/
theorem Register_error_witness :
    (demoMetrics.once = false ∧
      ∃ pre r post reg1 e,
        ((id (registry demoMetrics)).map fun kv => kv.2) = pre ++ r :: post ∧
        Accepted nameRegistry demoCollector pre reg1 ∧
        (nameRegistry.Register reg1 r).2 = some e ∧
        str "can't register prometheus metrics: duplicate metrics collector registration attempted"
          = str "can't register prometheus metrics: " ++ e ∧
        (Register nameRegistry demoMetrics demoCollector id).2.1
          = (nameRegistry.Register reg1 r).1) ∧
    (Register nameRegistry demoMetrics demoCollector id).2.1.map (fun d => d.Name)
      = [K8gbGslbStatusCountForFailover, K8gbGslbHealthyRecords, K8gbGslbServiceStatusNum] ∧
    (Register nameRegistry (Register nameRegistry demoMetrics demoCollector id).1
        (Register nameRegistry demoMetrics demoCollector id).2.1 id).2.2 = none :=
  ⟨((Register_error nameRegistry demoMetrics demoCollector id).1 _).1 (by decide), by decide,
    (Register_error nameRegistry demoMetrics demoCollector id).2 id⟩

end K8gb
